import Mathlib

/-!
Shallow embedding of the VRTOR hand-gesture interaction core
(`src/main.js` plus the modular controls under `src/src/controls/`).

Scalars are modelled as real numbers (the source computes with JS
doubles, including `Math.sqrt` and `Math.exp`, so exact rationals
cannot express them); `null`/missing values become `Option`.  Values
the source reads back from the three.js scene graph each tick (world
matrices, geometry bounding boxes) appear as explicit inputs of the
embedded per-tick update functions.
-/

namespace VRTOR

open scoped Classical

noncomputable section

/-! ### three.js math primitives used by the source -/

/-- A three.js `Vector3`. -/
structure Vec3 where
  x : ℝ
  y : ℝ
  z : ℝ
deriving DecidableEq

def Vec3.add (a b : Vec3) : Vec3 := ⟨a.x + b.x, a.y + b.y, a.z + b.z⟩

def Vec3.sub (a b : Vec3) : Vec3 := ⟨a.x - b.x, a.y - b.y, a.z - b.z⟩

def Vec3.smul (a : Vec3) (s : ℝ) : Vec3 := ⟨a.x * s, a.y * s, a.z * s⟩

def Vec3.dot (a b : Vec3) : ℝ := a.x * b.x + a.y * b.y + a.z * b.z

def Vec3.lengthSq (a : Vec3) : ℝ := a.x * a.x + a.y * a.y + a.z * a.z

/-- `Vector3.length()`. -/
def Vec3.length (a : Vec3) : ℝ := Real.sqrt a.lengthSq

/-- `Vector3.distanceTo(b)`. -/
def Vec3.distanceTo (a b : Vec3) : ℝ := (a.sub b).length

/-- `Vector3.normalize()`: divides by `length || 1`, so the zero vector
is left unchanged. -/
def Vec3.normalize (a : Vec3) : Vec3 :=
  a.smul (if a.length = 0 then 1 else a.length)⁻¹

/-- Componentwise `Vector3.clamp(min, max)` (used by `Box3.clampPoint`). -/
def Vec3.clampV (a lo hi : Vec3) : Vec3 :=
  ⟨max lo.x (min hi.x a.x), max lo.y (min hi.y a.y), max lo.z (min hi.z a.z)⟩

/-- A three.js `Quaternion`. -/
structure Quat where
  x : ℝ
  y : ℝ
  z : ℝ
  w : ℝ
deriving DecidableEq

/-- `Quaternion.multiplyQuaternions(a, b)`; `a.premultiply(q)` is `mul q a`. -/
def Quat.mul (a b : Quat) : Quat :=
  ⟨a.x * b.w + a.w * b.x + a.y * b.z - a.z * b.y,
   a.y * b.w + a.w * b.y + a.z * b.x - a.x * b.z,
   a.z * b.w + a.w * b.z + a.x * b.y - a.y * b.x,
   a.w * b.w - a.x * b.x - a.y * b.y - a.z * b.z⟩

def Quat.length (q : Quat) : ℝ :=
  Real.sqrt (q.x * q.x + q.y * q.y + q.z * q.z + q.w * q.w)

/-- `Quaternion.normalize()`: a zero-length quaternion becomes the identity. -/
def Quat.normalize (q : Quat) : Quat :=
  if q.length = 0 then ⟨0, 0, 0, 1⟩
  else ⟨q.x / q.length, q.y / q.length, q.z / q.length, q.w / q.length⟩

/-- `Number.EPSILON` (2⁻⁵²), used by `setFromUnitVectors`. -/
def numberEpsilon : ℝ := (2 : ℝ) ^ (-52 : ℤ)

/-- `Quaternion.setFromUnitVectors(vFrom, vTo)` from three.js r161. -/
def Quat.setFromUnitVectors (vFrom vTo : Vec3) : Quat :=
  let r := vFrom.dot vTo + 1
  if r < numberEpsilon then
    (if |vFrom.x| > |vFrom.z| then (⟨-vFrom.y, vFrom.x, 0, 0⟩ : Quat)
     else (⟨0, -vFrom.z, vFrom.y, 0⟩ : Quat)).normalize
  else
    (⟨vFrom.y * vTo.z - vFrom.z * vTo.y,
      vFrom.z * vTo.x - vFrom.x * vTo.z,
      vFrom.x * vTo.y - vFrom.y * vTo.x, r⟩ : Quat).normalize

/-- A three.js `Box3` (axis-aligned, given by min/max corners). -/
structure Box3 where
  min : Vec3
  max : Vec3
deriving DecidableEq

/-- `Box3.isEmpty()`. -/
def Box3.isEmpty (b : Box3) : Bool :=
  decide (b.max.x < b.min.x) || decide (b.max.y < b.min.y) || decide (b.max.z < b.min.z)

/-- `Box3.containsPoint(p)`. -/
def Box3.containsPoint (b : Box3) (p : Vec3) : Bool :=
  decide (b.min.x ≤ p.x) && decide (p.x ≤ b.max.x) &&
  decide (b.min.y ≤ p.y) && decide (p.y ≤ b.max.y) &&
  decide (b.min.z ≤ p.z) && decide (p.z ≤ b.max.z)

/-- `Box3.expandByScalar(s)`. -/
def Box3.expandByScalar (b : Box3) (s : ℝ) : Box3 :=
  ⟨⟨b.min.x - s, b.min.y - s, b.min.z - s⟩, ⟨b.max.x + s, b.max.y + s, b.max.z + s⟩⟩

/-- `Box3.clampPoint(p)`. -/
def Box3.clampPoint (b : Box3) (p : Vec3) : Vec3 := p.clampV b.min b.max

/-- `Box3.distanceToPoint(p)` = `clampPoint(p).distanceTo(p)`. -/
def Box3.distanceToPoint (b : Box3) (p : Vec3) : ℝ :=
  (b.clampPoint p).distanceTo p

/-- A three.js `Matrix4`, column-major elements `e0..e15` as stored in
`matrix.elements` (so column j, row i is `e(4*j+i)`). -/
structure Mat4 where
  e0 : ℝ
  e1 : ℝ
  e2 : ℝ
  e3 : ℝ
  e4 : ℝ
  e5 : ℝ
  e6 : ℝ
  e7 : ℝ
  e8 : ℝ
  e9 : ℝ
  e10 : ℝ
  e11 : ℝ
  e12 : ℝ
  e13 : ℝ
  e14 : ℝ
  e15 : ℝ
deriving DecidableEq

/-- `Vector3.applyMatrix4(m)` including the perspective divide by `w`.
(The matrices the source applies are inverses of affine world matrices,
for which the divisor is nonzero; real division is total in Lean.) -/
def Mat4.applyToVec3 (m : Mat4) (v : Vec3) : Vec3 :=
  let w := (m.e3 * v.x + m.e7 * v.y + m.e11 * v.z + m.e15)⁻¹
  ⟨(m.e0 * v.x + m.e4 * v.y + m.e8 * v.z + m.e12) * w,
   (m.e1 * v.x + m.e5 * v.y + m.e9 * v.z + m.e13) * w,
   (m.e2 * v.x + m.e6 * v.y + m.e10 * v.z + m.e14) * w⟩

def Mat4.identity : Mat4 :=
  ⟨1, 0, 0, 0, 0, 1, 0, 0, 0, 0, 1, 0, 0, 0, 0, 1⟩

/-- `THREE.MathUtils.clamp(value, min, max)` = `Math.max(min, Math.min(max, value))`. -/
def jsClamp (value lo hi : ℝ) : ℝ := max lo (min hi value)

/-- `THREE.MathUtils.lerp(x, y, t)` = `(1 - t) * x + t * y`. -/
def jsLerp (x y t : ℝ) : ℝ := (1 - t) * x + t * y

/-- `THREE.MathUtils.damp(x, y, lambda, dt)` = `lerp(x, y, 1 - exp(-lambda * dt))`. -/
def jsDamp (x y lambda dt : ℝ) : ℝ := jsLerp x y (1 - Real.exp (-lambda * dt))

/-- JS `Math.round`: rounds half toward +∞. -/
def jsRound (x : ℝ) : ℤ := ⌊x + 1 / 2⌋

/-! ### HandTracker (`src/main.js`, class `HandTracker`)

The XR hand supplies a joint map; a joint that is not tracked this tick
is absent (`null` lookup in the source).  Only the joints the tracker
reads are modelled. -/

/-- The joints `HandTracker.update` looks up in `this.hand.joints`. -/
structure Joints where
  wrist : Option Vec3
  indexTip : Option Vec3
  middleTip : Option Vec3
  ringTip : Option Vec3
  pinkyTip : Option Vec3
  thumbTip : Option Vec3
  thumbMeta : Option Vec3
  indexMeta : Option Vec3
  middleMeta : Option Vec3
  ringMeta : Option Vec3
  pinkyMeta : Option Vec3

/-- Per-tick input: `this.hand.visible` and `this.hand.joints ?? null`. -/
structure HandInput where
  handVisible : Bool
  joints : Option Joints

/-- The `pinch` sub-record of the published gesture state.  `distance`
is `NaN` until both tips are seen; `none` models `NaN`. -/
structure PinchState where
  active : Bool
  distance : Option ℝ
  position : Option Vec3
  speed : ℝ

/-- The published `this.state` record. -/
structure GestureState where
  visible : Bool
  wrist : Option Vec3
  palm : Option Vec3
  indexTip : Option Vec3
  thumbTip : Option Vec3
  pinch : PinchState
  grab : Bool
  openHand : Bool
  contactPoints : List Vec3

/-- The tracker's `this.prev` record. -/
structure PrevState where
  pinchActive : Bool
  pinchPosition : Vec3
  grab : Bool
  openHand : Bool

/-- Event names fired through the tracker's listener map. -/
inductive EvName where
  | pinch
  | pinchstart
  | pinchend
  | grabstart
  | grabend
  | openstart
  | openend
deriving DecidableEq

/-- A fired event.  `pinchInfo` is the pinch record reachable from the
payload: the explicit `pinch` field for the pinch events, and
`payload.state.pinch` for the grab/open events. -/
structure GEvent where
  name : EvName
  pinchInfo : PinchState

/-- Everything one call of `HandTracker.update(time, delta)` produces:
the new `this.state`, the events fired during the call, and the new
`this.prev`. -/
structure HandOut where
  state : GestureState
  events : List GEvent
  prev : PrevState

/-- The pinch section of `HandTracker.update` (lines 144-161 of
`src/main.js`).  Returns the computed pinch record together with the
value held in `this.prev.pinchPosition` afterwards (it is only
overwritten while the pinch is active). -/
def pinchOf (visible : Bool) (indexTip thumbTip : Option Vec3) (prev : PrevState)
    (delta : ℝ) : PinchState × Vec3 :=
  match visible, indexTip, thumbTip with
  | true, some it, some tt =>
      let d := tt.distanceTo it
      if d < 0.03 then
        let pos := (it.add tt).smul 0.5
        let speed :=
          if prev.pinchActive ∧ delta > 0 then pos.distanceTo prev.pinchPosition / delta
          else 0
        (⟨true, some d, some pos, speed⟩, pos)
      else (⟨false, some d, none, 0⟩, prev.pinchPosition)
  | _, _, _ => (⟨false, none, none, 0⟩, prev.pinchPosition)

/-- The grab/open section of `HandTracker.update` (lines 200-206):
both flags are computed only when the hand is visible, the wrist is
tracked, and all four fingertips are tracked. -/
def grabOpenOf (visible : Bool) (wristPosition : Option Vec3) (tipsPresent : List Vec3) :
    Bool × Bool :=
  match visible, wristPosition with
  | true, some w =>
      if tipsPresent.length = 4 then
        let ds := tipsPresent.map fun p => p.distanceTo w
        let avg := ds.sum / (ds.length : ℝ)
        (decide (avg < 0.09), decide (avg > 0.11))
      else (false, false)
  | _, _ => (false, false)

/-- Palm estimation (lines 209-214): the centroid of the collected palm
candidates, or `null` if there are none. -/
def palmOf (cands : List Vec3) : Option Vec3 :=
  if cands.length > 0 then
    some ((cands.foldl Vec3.add ⟨0, 0, 0⟩).smul (1 / (cands.length : ℝ)))
  else none

/-- `HandTracker.update(time, delta)` (lines 131-275 of `src/main.js`).
`time` only flows into event payloads, which the embedding does not
record, so it is not a parameter. -/
def handUpdate (inp : HandInput) (prev : PrevState) (delta : ℝ) : HandOut :=
  let wrist := inp.joints.bind Joints.wrist
  let indexTip := inp.joints.bind Joints.indexTip
  let thumbTip := inp.joints.bind Joints.thumbTip
  let visible := inp.handVisible && wrist.isSome
  let pinchRes := pinchOf visible indexTip thumbTip prev delta
  let statePinch := pinchRes.1
  let wristPosition := wrist
  let fingerTips := [inp.joints.bind Joints.indexTip, inp.joints.bind Joints.middleTip,
    inp.joints.bind Joints.ringTip, inp.joints.bind Joints.pinkyTip]
  let tipsPresent := fingerTips.filterMap id
  let contactPoints := wristPosition.toList ++ if visible then tipsPresent else []
  let metas := [inp.joints.bind Joints.thumbMeta, inp.joints.bind Joints.indexMeta,
    inp.joints.bind Joints.middleMeta, inp.joints.bind Joints.ringMeta,
    inp.joints.bind Joints.pinkyMeta]
  let metasPresent := metas.filterMap id
  let palmCands1 := wristPosition.toList ++ if visible then metasPresent else []
  let palmCands :=
    if visible && decide (palmCands1.length ≤ 1) then palmCands1 ++ tipsPresent
    else palmCands1
  let go := grabOpenOf visible wristPosition tipsPresent
  let grabActive := go.1
  let openActive := go.2
  let st : GestureState :=
    { visible := visible
      wrist := wristPosition
      palm := palmOf palmCands
      indexTip := indexTip
      thumbTip := thumbTip
      pinch := statePinch
      grab := grabActive
      openHand := openActive
      contactPoints := contactPoints }
  let pinchEvents : List GEvent :=
    if statePinch.active then
      [⟨.pinch, statePinch⟩] ++ if !prev.pinchActive then [⟨.pinchstart, statePinch⟩] else []
    else if prev.pinchActive then
      [⟨.pinchend, { statePinch with position := none, speed := 0 }⟩]
    else []
  let grabEvents : List GEvent :=
    if grabActive && !prev.grab then [⟨.grabstart, statePinch⟩]
    else if !grabActive && prev.grab then [⟨.grabend, statePinch⟩]
    else []
  let openEvents : List GEvent :=
    if openActive && !prev.openHand then [⟨.openstart, statePinch⟩]
    else if !openActive && prev.openHand then [⟨.openend, statePinch⟩]
    else []
  { state := st
    events := pinchEvents ++ grabEvents ++ openEvents
    prev :=
      { pinchActive := statePinch.active
        pinchPosition := pinchRes.2
        grab := grabActive
        openHand := openActive } }

/-- The property claimed of `pinchend` payloads: if an event is a
`pinchend`, its payload pinch record has a null position and zero
speed. -/
def evPred (e : GEvent) : Bool :=
  !(decide (e.name = EvName.pinchend)) ||
    (decide (e.pinchInfo.position = none) && decide (e.pinchInfo.speed = (0 : ℝ)))

/-! ### DoubleGrabController (`src/main.js` lines 1251-1459; identical
class in `src/interactions/DoubleGrabController.js`)

The static field `DoubleGrabController.activeController` is the shared
exclusivity lock; it is modelled as an `Option ℕ` holding the id of the
owning controller instance, threaded through `update`.  The local
bounds and the inverse world matrix are recomputed from the scene graph
by `computeLocalBounds()` each tick, so they are inputs here. -/

/-- Constructor options of `DoubleGrabController` (callback omitted). -/
structure DGCOptions where
  proximity : ℝ
  minScale : ℝ
  maxScale : ℝ
  intersectionPadding : ℝ

/-- The values captured in `this.initial` when a grab engages. -/
structure DGCInitial where
  midpoint : Vec3
  offset : Vec3
  direction : Vec3
  distance : ℝ
  quaternion : Quat
  scale : ℝ

/-- Mutable controller state across ticks. -/
structure DGCState where
  engaged : Bool
  highlighted : Bool
  initial : DGCInitial

/-- The manipulated group's world transform (position, quaternion,
per-axis scale), read and written by `update`. -/
structure GroupT where
  position : Vec3
  quaternion : Quat
  scale : Vec3

/-- What `computeLocalBounds()` derives from the scene graph each tick:
the group-local bounds union and the inverse of the group's world
matrix. -/
structure DGCEnv where
  localBounds : Box3
  invMatrix : Mat4

/-- The per-hand gesture-state fields `update(leftState, rightState)`
reads. -/
structure HandLite where
  visible : Bool
  grab : Bool
  palm : Option Vec3
  wrist : Option Vec3

/-- `leftState?.palm ?? leftState?.wrist ?? null`. -/
def handPoint (h : HandLite) : Option Vec3 :=
  match h.palm with
  | some p => some p
  | none => h.wrist

/-- Translate the hand's representative points by `t` (used to state
the translation-homomorphism property). -/
def HandLite.translate (h : HandLite) (t : Vec3) : HandLite :=
  { h with palm := h.palm.map (·.add t), wrist := h.wrist.map (·.add t) }

/-- The return record of `update`. -/
structure DGCResult where
  ready : Bool
  grabbing : Bool

/-- Everything one `update` call changes: the controller state, the
shared lock, the group transform, and the returned record. -/
structure DGCOut where
  st : DGCState
  active : Option ℕ
  group : GroupT
  res : DGCResult

/-- The body of the engaged transform (lines 1431-1454): rotation and
scale are recomputed only when the live span is longer than the `1e-4`
guard; the position always follows the live midpoint plus the captured
offset. -/
def dgcApplyTransform (opts : DGCOptions) (ini : DGCInitial) (lp rp : Vec3)
    (grp : GroupT) : GroupT :=
  let midpoint := (lp.add rp).smul 0.5
  let spanVector := rp.sub lp
  let spanLength := spanVector.length
  let grp1 :=
    if spanLength > 1e-4 then
      let direction := spanVector.normalize
      let rotationDelta := Quat.setFromUnitVectors ini.direction direction
      let rotated := rotationDelta.mul ini.quaternion
      let relativeScale := spanLength / max ini.distance 0.1
      let clampedScale := jsClamp (ini.scale * relativeScale) opts.minScale opts.maxScale
      { grp with quaternion := rotated,
                 scale := ⟨clampedScale, clampedScale, clampedScale⟩ }
    else grp
  { grp1 with position := midpoint.add ini.offset }

/-- The `touching` test for one hand (lines 1386-1400): always false
while another controller holds the lock. -/
def dgcTouching (blocked : Bool) (visible : Bool) (localPoint : Option Vec3)
    (bounds : Box3) (hasBounds : Bool) (proximityLocal : ℝ) : Bool :=
  !blocked && visible &&
    match localPoint with
    | some p =>
        hasBounds && (bounds.containsPoint p || decide (bounds.distanceToPoint p ≤ proximityLocal))
    | none => false

/-- `blockedByOther` (lines 1374-1375): the lock is held by someone
else. -/
def dgcBlockedBy (active : Option ℕ) (selfId : ℕ) : Bool :=
  active.isSome && decide (active ≠ some selfId)

/-- `averageScale` (lines 1344-1345): the `|| 1` fallback maps a zero
average to 1. -/
def dgcAverageScale (grp : GroupT) : ℝ :=
  let avgRaw := (|grp.scale.x| + |grp.scale.y| + |grp.scale.z|) / 3
  if avgRaw = 0 then 1 else avgRaw

/-- `intersectionBounds` (lines 1346-1351): the local bounds expanded
by the world padding divided by the average scale. -/
def dgcIntersectionBounds (opts : DGCOptions) (grp : GroupT) (env : DGCEnv) : Box3 :=
  let paddingWorld := max 0 opts.intersectionPadding
  let paddingLocal := paddingWorld / dgcAverageScale grp
  if paddingLocal > 0 then env.localBounds.expandByScalar paddingLocal
  else env.localBounds

/-- The touching test of one hand (lines 1380-1400), on the hand's
representative point transformed into the group's local frame. -/
def dgcHandTouching (selfId : ℕ) (opts : DGCOptions) (active : Option ℕ) (grp : GroupT)
    (env : DGCEnv) (h : HandLite) : Bool :=
  let bounds := dgcIntersectionBounds opts grp env
  let proximityLocal := max 0 opts.proximity / dgcAverageScale grp
  dgcTouching (dgcBlockedBy active selfId) h.visible
    ((handPoint h).map env.invMatrix.applyToVec3) bounds (!bounds.isEmpty) proximityLocal

/-- `bothTouching` (line 1402). -/
def dgcBothTouching (selfId : ℕ) (opts : DGCOptions) (active : Option ℕ) (grp : GroupT)
    (env : DGCEnv) (l r : HandLite) : Bool :=
  dgcHandTouching selfId opts active grp env l && dgcHandTouching selfId opts active grp env r

/-- Whether this tick transitions Idle to Engaged (line 1406). -/
def dgcEngagedNow (selfId : ℕ) (opts : DGCOptions) (st : DGCState) (active : Option ℕ)
    (grp : GroupT) (env : DGCEnv) (l r : HandLite) : Bool :=
  !st.engaged && (dgcBothTouching selfId opts active grp env l r && (l.grab && r.grab))

/-- The capture performed on the engage transition (lines 1406-1426).
The `Option.getD` reads are guarded: engaging requires touching, which
requires a non-null point. -/
def dgcCapture (st : DGCState) (grp : GroupT) (leftPoint rightPoint : Option Vec3) :
    DGCState :=
  let lp := leftPoint.getD ⟨0, 0, 0⟩
  let rp := rightPoint.getD ⟨0, 0, 0⟩
  let midpoint := (lp.add rp).smul 0.5
  let spanVector := rp.sub lp
  let spanLength := spanVector.length
  let dirDist : Vec3 × ℝ :=
    if spanLength > 1e-4 then (spanVector.normalize, spanLength)
    else (⟨1, 0, 0⟩, 0.3)
  { st with
      engaged := true
      initial :=
        { midpoint := midpoint
          offset := grp.position.sub midpoint
          direction := dirDist.1
          distance := dirDist.2
          quaternion := grp.quaternion
          scale := grp.scale.x } }

/-- The controller state after the engage transition and the
`setHighlight(this.engaged || bothTouching)` call (line 1428). -/
def dgcSt2 (selfId : ℕ) (opts : DGCOptions) (st : DGCState) (active : Option ℕ)
    (grp : GroupT) (env : DGCEnv) (l r : HandLite) : DGCState :=
  let st1 :=
    if dgcEngagedNow selfId opts st active grp env l r then
      dgcCapture st grp (handPoint l) (handPoint r)
    else st
  { st1 with highlighted := st1.engaged || dgcBothTouching selfId opts active grp env l r }

/-- The lock after the engage transition (line 1408). -/
def dgcActive1 (selfId : ℕ) (opts : DGCOptions) (st : DGCState) (active : Option ℕ)
    (grp : GroupT) (env : DGCEnv) (l r : HandLite) : Option ℕ :=
  if dgcEngagedNow selfId opts st active grp env l r then some selfId else active

/-- The tail of `update` (lines 1430-1456): the early non-engaged
return, the release check — with `release()` (lines 1301-1306) inlined
at its only call site — and the engaged transform. -/
def dgcFinish (opts : DGCOptions) (st2 : DGCState) (active1 : Option ℕ) (selfId : ℕ)
    (grp : GroupT) (bothGrabbing blocked bothTouching lvis rvis : Bool)
    (leftPoint rightPoint : Option Vec3) : DGCOut :=
  if !st2.engaged then ⟨st2, active1, grp, ⟨st2.highlighted, false⟩⟩
  else if !bothGrabbing || leftPoint.isNone || rightPoint.isNone || !lvis || !rvis ||
      blocked || !bothTouching then
    let active2 :=
      if st2.engaged && decide (active1 = some selfId) then none else active1
    ⟨{ st2 with engaged := false, highlighted := false }, active2, grp, ⟨false, false⟩⟩
  else
    ⟨st2, active1,
      dgcApplyTransform opts st2.initial (leftPoint.getD ⟨0, 0, 0⟩)
        (rightPoint.getD ⟨0, 0, 0⟩) grp,
      ⟨st2.highlighted, true⟩⟩

/-- `DoubleGrabController.update(leftState, rightState)` (lines
1339-1457), assembled from the stages above in source order. -/
def dgcUpdate (selfId : ℕ) (opts : DGCOptions) (st : DGCState) (active : Option ℕ)
    (grp : GroupT) (env : DGCEnv) (l r : HandLite) : DGCOut :=
  dgcFinish opts (dgcSt2 selfId opts st active grp env l r)
    (dgcActive1 selfId opts st active grp env l r) selfId grp (l.grab && r.grab)
    (dgcBlockedBy active selfId) (dgcBothTouching selfId opts active grp env l r)
    l.visible r.visible (handPoint l) (handPoint r)

/-! ### PanelButton (`src/src/controls/PanelButton.js`)

The mesh's inverse world matrix (`worldToLocal`) is a per-tick input;
`halfExtents` lives in the state as in the source. -/

/-- The fields of `this.state` that `update` reads and writes
(rendering-only fields omitted). -/
structure ButtonState where
  maxPressDepth : ℝ
  currentDepth : ℝ
  targetDepth : ℝ
  damping : ℝ
  activationThreshold : ℝ
  releaseThreshold : ℝ
  contactPadding : ℝ
  depthBias : ℝ
  latched : Bool
  ready : Bool
  halfExtents : Vec3

/-- The per-hand gesture-state fields `computeButtonTargetDepth` reads. -/
structure BtnHand where
  visible : Bool
  contactPoints : List Vec3
  pinchPos : Option Vec3

/-- One tick's worth of input to `PanelButton.update`. -/
structure BtnTick where
  inv : Mat4
  left : BtnHand
  right : BtnHand
  delta : ℝ

/-- The record returned by `PanelButton.update`. -/
structure BtnResult where
  ratio : ℝ
  pressed : Bool
  justActivated : Bool
  justReleased : Bool

/-- One candidate point of `computeButtonTargetDepth`: transformed into
the button's local frame, it contributes a depth iff its x/y fall
within the padded half-extents. -/
def buttonCandDepth (inv : Mat4) (st : ButtonState) (p : Vec3) : Option ℝ :=
  let lp := inv.applyToVec3 p
  if |lp.x| ≤ st.halfExtents.x + st.contactPadding ∧
     |lp.y| ≤ st.halfExtents.y + st.contactPadding then
    some (st.halfExtents.z - lp.z + st.depthBias)
  else none

/-- The points a visible hand contributes: its contact points followed
by its active pinch point. -/
def buttonHandPoints (h : BtnHand) : List Vec3 :=
  if h.visible then h.contactPoints ++ h.pinchPos.toList else []

/-- `computeButtonTargetDepth(button, state, handStates)`. -/
def computeButtonTargetDepth (inv : Mat4) (st : ButtonState) (hands : List BtnHand) : ℝ :=
  let cands := (hands.foldr (fun h acc => buttonHandPoints h ++ acc) []).filterMap
    (buttonCandDepth inv st)
  jsClamp (cands.foldl max 0) 0 st.maxPressDepth

/-- `PanelButton.update(leftState, rightState, delta)` (lines 113-142). -/
def panelButtonUpdate (st : ButtonState) (tk : BtnTick) : ButtonState × BtnResult :=
  let targetDepth := computeButtonTargetDepth tk.inv st [tk.left, tk.right]
  let d0 := jsDamp st.currentDepth targetDepth st.damping tk.delta
  let d1 := if |d0 - targetDepth| < 1e-4 then targetDepth else d0
  let currentDepth := jsClamp d1 0 st.maxPressDepth
  let ratio :=
    if st.maxPressDepth > 0 then jsClamp (currentDepth / st.maxPressDepth) 0 1 else 0
  let pressed := decide (ratio ≥ st.activationThreshold)
  let fireActivate := pressed && !st.latched
  let fireRelease := !pressed && st.latched && decide (ratio ≤ st.releaseThreshold)
  let latchedNext := if fireActivate then true else if fireRelease then false else st.latched
  ({ st with currentDepth := currentDepth, targetDepth := targetDepth, latched := latchedNext },
   ⟨ratio, pressed, fireActivate, fireRelease⟩)

/-- The button state before tick `n`, iterating `update` over an input
stream. -/
def buttonRun (st0 : ButtonState) (tks : ℕ → BtnTick) : ℕ → ButtonState
  | 0 => st0
  | n + 1 => (panelButtonUpdate (buttonRun st0 tks n) (tks n)).1

/-- The record returned by tick `n`. -/
def buttonResAt (st0 : ButtonState) (tks : ℕ → BtnTick) (n : ℕ) : BtnResult :=
  (panelButtonUpdate (buttonRun st0 tks n) (tks n)).2

/-! ### ThrottleLeverControl (`src/src/controls/ThrottleLeverControl.js`)

The handle's world bounding box (`setFromObject`) and the group's
inverse world matrix (`worldToLocal`) come from the scene, so they are
tick inputs. -/

/-- The hand labels `'L'` and `'R'`. -/
inductive HandLabel where
  | L
  | R
deriving DecidableEq

/-- The per-hand gesture-state fields the slider and the rotary read. -/
structure PinchLite where
  visible : Bool
  pinchActive : Bool
  pinchPos : Option Vec3

/-- `Boolean(active?.data?.visible && pinch?.active && pinch?.position)`. -/
def pinchOk (h : PinchLite) : Bool :=
  h.visible && h.pinchActive && h.pinchPos.isSome

/-- Select the participant with the given label. -/
def pickHand (label : HandLabel) (l r : PinchLite) : PinchLite :=
  match label with
  | .L => l
  | .R => r

/-- The fields of the slider's `this.state` that `update` touches. -/
structure ThrottleState where
  ready : Bool
  currentValue : ℝ
  targetValue : ℝ
  minPosition : ℝ
  maxPosition : ℝ
  grabPadding : ℝ
  damping : ℝ
  grabbedBy : Option HandLabel
  grabOffset : ℝ

/-- One tick's worth of input to `ThrottleLeverControl.update`. -/
structure ThrottleTick where
  bounding : Box3
  inv : Mat4
  left : PinchLite
  right : PinchLite
  delta : ℝ

/-- The record returned by `ThrottleLeverControl.update`. -/
structure ThrottleResult where
  value : ℝ
  grabbing : Bool
  activeHand : Option HandLabel

/-- `getValueFromLocalY(y)` (lines 92-95). -/
def throttleAxisValue (st : ThrottleState) (y : ℝ) : ℝ :=
  jsClamp ((y - st.minPosition) / (st.maxPosition - st.minPosition)) 0 1

/-- One iteration of the acquisition scan (lines 126-138): `none` when
this hand does not qualify. -/
def throttleTryAcquire (padded : Box3) (inv : Mat4) (st : ThrottleState)
    (label : HandLabel) (hand : PinchLite) : Option ThrottleState :=
  match hand.pinchPos with
  | some p =>
      if hand.visible && hand.pinchActive && padded.containsPoint p then
        let pinchValue := throttleAxisValue st (inv.applyToVec3 p).y
        some { st with grabbedBy := some label, grabOffset := pinchValue - st.currentValue }
      else none
  | none => none

/-- `if (!this.state.ready)` release (lines 112-115). -/
def throttleStep1 (st : ThrottleState) : ThrottleState :=
  if !st.ready then { st with grabbedBy := none, grabOffset := 0 } else st

/-- Drop the grab when the grabbing hand's pinch has ended (lines
117-125). -/
def throttleStep2 (st : ThrottleState) (tk : ThrottleTick) : ThrottleState :=
  match st.grabbedBy with
  | some h =>
      if !pinchOk (pickHand h tk.left tk.right) then
        { st with grabbedBy := none, grabOffset := 0 }
      else st
  | none => st

/-- The acquisition scan over `L` then `R` (lines 127-139). -/
def throttleStep3 (padded : Box3) (st : ThrottleState) (tk : ThrottleTick) :
    ThrottleState :=
  if st.grabbedBy.isNone && st.ready then
    match throttleTryAcquire padded tk.inv st .L tk.left with
    | some s => s
    | none => (throttleTryAcquire padded tk.inv st .R tk.right).getD st
  else st

/-- The target-value update (lines 141-151). -/
def throttleStep4 (st : ThrottleState) (tk : ThrottleTick) : ThrottleState :=
  match st.grabbedBy with
  | some h =>
      match (pickHand h tk.left tk.right).pinchPos with
      | some p =>
          let pinchValue := throttleAxisValue st (tk.inv.applyToVec3 p).y
          { st with targetValue := jsClamp (pinchValue - st.grabOffset) 0 1 }
      | none => st
  | none => { st with targetValue := jsClamp st.targetValue 0 1 }

/-- The damped approach of `currentValue` with its snap (lines
153-162). -/
def throttleStep5 (st : ThrottleState) (tk : ThrottleTick) : ThrottleState :=
  let v0 := jsDamp st.currentValue st.targetValue st.damping tk.delta
  { st with currentValue := if |v0 - st.targetValue| < 1e-4 then st.targetValue else v0 }

/-- `ThrottleLeverControl.update(leftState, rightState, delta)` (lines
97-201; rendering-only writes omitted), assembled from the stages above
in source order. -/
def throttleUpdate (st : ThrottleState) (tk : ThrottleTick) : ThrottleState × ThrottleResult :=
  let padded := tk.bounding.expandByScalar st.grabPadding
  let st5 :=
    throttleStep5 (throttleStep4 (throttleStep3 padded (throttleStep2 (throttleStep1 st) tk)
      tk) tk) tk
  (st5, ⟨st5.currentValue, st5.grabbedBy.isSome, st5.grabbedBy⟩)

/-- Iterate `throttleUpdate` with the same input every tick (state
before tick `n`). -/
def throttleRun (st0 : ThrottleState) (tk : ThrottleTick) : ℕ → ThrottleState
  | 0 => st0
  | n + 1 => (throttleUpdate (throttleRun st0 tk n) tk).1

/-! ### RotarySelectorControl (`src/src/controls/RotarySelectorControl.js`)

The constructor pads or truncates `labels` to `faceCount = 6`, so both
`segmentAngle` and the modulus are fixed at 6 faces. -/

/-- `segmentAngle = (Math.PI * 2) / this.faceCount` with `faceCount = 6`. -/
def rotarySegment : ℝ := Real.pi * 2 / 6

/-- JS `Math.atan2(y, x)` on exact reals (signed zeros do not exist in
`ℝ`; `atan2(0, 0) = 0`). -/
def jsAtan2 (y x : ℝ) : ℝ :=
  if x > 0 then Real.arctan (y / x)
  else if x < 0 ∧ 0 ≤ y then Real.arctan (y / x) + Real.pi
  else if x < 0 ∧ y < 0 then Real.arctan (y / x) - Real.pi
  else if x = 0 ∧ y > 0 then Real.pi / 2
  else if x = 0 ∧ y < 0 then -(Real.pi / 2)
  else 0

/-- The fields of the rotary's `this.state` that `update` touches. -/
structure RotaryState where
  ready : Bool
  grabbedBy : Option HandLabel
  lastGrabAngle : Option ℝ
  rawAngle : ℝ
  currentAngle : ℝ
  targetAngle : ℝ
  damping : ℝ
  innerRadius : ℝ
  outerRadius : ℝ
  heightAllowance : ℝ
  selectedIndex : ℤ

/-- One tick's worth of input to `RotarySelectorControl.update`. -/
structure RotaryTick where
  inv : Mat4
  left : PinchLite
  right : PinchLite
  delta : ℝ

/-- The fields of the returned record the claims are about, plus a flag
recording whether `onSelectionChange` was invoked during the call. -/
structure RotaryResult where
  grabbing : Bool
  selectedIndex : ℤ
  selectionChanged : Bool

/-- One iteration of the rotary acquisition scan (lines 222-236):
`none` when this hand does not qualify. -/
def rotaryAcquire (inv : Mat4) (st : RotaryState) (label : HandLabel)
    (hand : PinchLite) : Option RotaryState :=
  match hand.pinchPos with
  | some p =>
      if hand.visible && hand.pinchActive then
        let lp := inv.applyToVec3 p
        let radius := Real.sqrt (lp.x * lp.x + lp.z * lp.z)
        if st.innerRadius ≤ radius ∧ radius ≤ st.outerRadius ∧ |lp.y| ≤ st.heightAllowance then
          some { st with grabbedBy := some label, lastGrabAngle := some (jsAtan2 lp.x lp.z) }
        else none
      else none
  | none => none

/-- `if (!this.state.ready)` release (lines 201-204). -/
def rotaryStep1 (st : RotaryState) : RotaryState :=
  if !st.ready then { st with grabbedBy := none, lastGrabAngle := none } else st

/-- Drop the grab when the grabbing hand's pinch has ended (lines
208-215). -/
def rotaryStep2 (st : RotaryState) (tk : RotaryTick) : RotaryState :=
  match st.grabbedBy with
  | some h =>
      if !pinchOk (pickHand h tk.left tk.right) then
        { st with grabbedBy := none, lastGrabAngle := none }
      else st
  | none => st

/-- The acquisition scan over `L` then `R` (lines 217-238). -/
def rotaryStep3 (st : RotaryState) (tk : RotaryTick) : RotaryState :=
  if st.grabbedBy.isNone && st.ready then
    match rotaryAcquire tk.inv st .L tk.left with
    | some s => s
    | none => (rotaryAcquire tk.inv st .R tk.right).getD st
  else st

/-- The raw-angle accumulation while grabbed (lines 240-251). -/
def rotaryStep4 (st : RotaryState) (tk : RotaryTick) : RotaryState :=
  match st.grabbedBy with
  | some h =>
      match (pickHand h tk.left tk.right).pinchPos with
      | some p =>
          let lp := tk.inv.applyToVec3 p
          let angle := jsAtan2 lp.x lp.z
          let last := st.lastGrabAngle.getD angle
          let dNorm := jsAtan2 (Real.sin (angle - last)) (Real.cos (angle - last))
          { st with
              rawAngle := st.rawAngle + dNorm
              lastGrabAngle := some angle
              targetAngle := st.rawAngle + dNorm }
      | none => st
  | none => { st with lastGrabAngle := none }

/-- Release, acquisition and raw-angle accumulation (lines 200-251 of
`update`, everything before the selected-index computation), in source
order. -/
def rotaryPre (st : RotaryState) (tk : RotaryTick) : RotaryState :=
  rotaryStep4 (rotaryStep3 (rotaryStep2 (rotaryStep1 st) tk) tk) tk

/-- `RotarySelectorControl.update(leftState, rightState, delta)` (lines
194-271; face-texture refreshes omitted). -/
def rotaryUpdate (st : RotaryState) (tk : RotaryTick) : RotaryState × RotaryResult :=
  let stP := rotaryPre st tk
  let rawIndex := jsRound (stP.rawAngle / rotarySegment)
  let normalizedIndex := (rawIndex.tmod 6 + 6).tmod 6
  let changed := decide (normalizedIndex ≠ st.selectedIndex)
  let st4 := if changed then { stP with selectedIndex := normalizedIndex } else stP
  let st5 :=
    if st4.grabbedBy.isNone then
      { st4 with rawAngle := (rawIndex : ℝ) * rotarySegment,
                 targetAngle := (rawIndex : ℝ) * rotarySegment }
    else st4
  let c0 := jsDamp st5.currentAngle st5.targetAngle st5.damping tk.delta
  let c1 := if |c0 - st5.targetAngle| < 1e-4 then st5.targetAngle else c0
  let st6 := { st5 with currentAngle := c1 }
  (st6, ⟨st6.grabbedBy.isSome, st6.selectedIndex, changed⟩)

/-- The outcome of calling `update` again on the next tick, starting
from everything the previous call left behind. -/
def dgcTick2 (selfId : ℕ) (opts : DGCOptions) (o : DGCOut) (env : DGCEnv)
    (l r : HandLite) : DGCOut :=
  dgcUpdate selfId opts o.st o.active o.group env l r

/-! ### Concrete inputs used by the witnesses and counterexamples -/

/-- A joint map where only the wrist is tracked. -/
def wristOnlyJoints : Joints :=
  ⟨some ⟨0, 0, 0⟩, none, none, none, none, none, none, none, none, none, none⟩

/-- A hand flagged invisible whose joint map still reports a wrist. -/
def invisibleWristInput : HandInput := ⟨false, some wristOnlyJoints⟩

/-- A hand with no joint data at all. -/
def lostHandInput : HandInput := ⟨false, none⟩

/-- A quiescent previous-tick record. -/
def prevQuiet : PrevState := ⟨false, ⟨0, 0, 0⟩, false, false⟩

/-- A joint map with all tips, wrist and metacarpals at explicit spots:
the four fingertips sit 0.05 from the wrist, so the hand is grabbing. -/
def fistJoints : Joints :=
  ⟨some ⟨0, 0, 0⟩, some ⟨0.05, 0, 0⟩, some ⟨0.05, 0, 0⟩, some ⟨0.05, 0, 0⟩,
   some ⟨0.05, 0, 0⟩, some ⟨0.05, 0, 0⟩, none, none, none, none, none⟩

/-- A visible grabbing hand. -/
def fistInput : HandInput := ⟨true, some fistJoints⟩

/-- Controller options: no padding and no proximity so the touching
test is the plain bounds test. -/
def optsW : DGCOptions := ⟨0, 0.35, 3.5, 0⟩

/-- A unit group transform at the origin. -/
def grpW : GroupT := ⟨⟨0, 0, 0⟩, ⟨0, 0, 0, 1⟩, ⟨1, 1, 1⟩⟩

/-- Captured values of an engaged session: unit span along x. -/
def iniE : DGCInitial := ⟨⟨0.5, 0, 0⟩, ⟨-0.5, 0, 0⟩, ⟨1, 0, 0⟩, 1, ⟨0, 0, 0, 1⟩, 1⟩

/-- An idle controller state. -/
def stIdle : DGCState := ⟨false, false, iniE⟩

/-- An engaged controller state. -/
def stEng : DGCState := ⟨true, true, iniE⟩

/-- Scene data: a big box around the origin, identity inverse matrix. -/
def envW : DGCEnv := ⟨⟨⟨-2, -2, -2⟩, ⟨2, 2, 2⟩⟩, Mat4.identity⟩

/-- A visible grabbing hand whose palm is at `p`. -/
def handAt (p : Vec3) : HandLite := ⟨true, true, some p, none⟩

/-- Button state for the witness: a tiny `maxPressDepth` so the damped
depth always lands within the snap epsilon of its target. -/
def btnW : ButtonState :=
  { maxPressDepth := 1e-5
    currentDepth := 0
    targetDepth := 0
    damping := 18
    activationThreshold := 0.95
    releaseThreshold := 0.2
    contactPadding := 0.012
    depthBias := 0.003
    latched := false
    ready := true
    halfExtents := ⟨0.12, 0.05, 0.05⟩ }

/-- A hand pressing straight into the button at the local origin. -/
def btnPressHand : BtnHand := ⟨true, [⟨0, 0, 0⟩], none⟩

/-- A hand that is not visible. -/
def btnIdleHand : BtnHand := ⟨false, [], none⟩

/-- Witness tick stream for the button: contact on tick 0, nothing
afterwards; `delta = 0` keeps the damped depth exactly in place so the
snap branch decides everything. -/
def btnTicks : ℕ → BtnTick
  | 0 => ⟨Mat4.identity, btnPressHand, btnIdleHand, 0⟩
  | _ + 1 => ⟨Mat4.identity, btnIdleHand, btnIdleHand, 0⟩

/-- A pinching hand at world position `p`. -/
def pinchAt (p : Vec3) : PinchLite := ⟨true, true, some p⟩

/-- A hand without an active pinch. -/
def pinchIdle : PinchLite := ⟨false, false, none⟩

/-- Slider state for the witnesses, matching the constructor defaults
with `currentValue = 0.3`. -/
def throttleW : ThrottleState :=
  { ready := true
    currentValue := 0.3
    targetValue := 0.3
    minPosition := -0.15
    maxPosition := 0.15
    grabPadding := 0.03
    damping := 16
    grabbedBy := none
    grabOffset := 0 }

/-- Slider state already grabbed by the left hand with zero offset. -/
def throttleGrabbed : ThrottleState :=
  { throttleW with grabbedBy := some HandLabel.L }

/-- Slider tick: a pinch at the local origin (axis value 0.5), inside
the handle's padded bounds. -/
def throttleTickAcquire : ThrottleTick :=
  ⟨⟨⟨-1, -1, -1⟩, ⟨1, 1, 1⟩⟩, Mat4.identity, pinchAt ⟨0, 0, 0⟩, pinchIdle, 0⟩

/-- Slider tick: the pinch has ended. -/
def throttleTickRelease : ThrottleTick :=
  ⟨⟨⟨-1, -1, -1⟩, ⟨1, 1, 1⟩⟩, Mat4.identity, pinchIdle, pinchIdle, 0⟩

/-- Slider tick: the grabbed pinch is dragged far beyond the top of the
track (local y = 10 implies a raw axis value of about 33.8), with a
positive delta so damping makes progress. -/
def throttleTickHigh : ThrottleTick :=
  ⟨⟨⟨-1, -1, -1⟩, ⟨1, 1, 1⟩⟩, Mat4.identity, pinchAt ⟨0, 10, 0⟩, pinchIdle, 1⟩

/-- Rotary state: ready, idle, with one full turn accumulated. -/
def rotaryW : RotaryState :=
  { ready := true
    grabbedBy := none
    lastGrabAngle := none
    rawAngle := Real.pi * 2
    currentAngle := 0
    targetAngle := 0
    damping := 12
    innerRadius := 0.05
    outerRadius := 0.17
    heightAllowance := 0.12
    selectedIndex := 0 }

/-- Rotary tick with no interacting hands. -/
def rotaryTickIdle : RotaryTick := ⟨Mat4.identity, pinchIdle, pinchIdle, 0⟩

end

/-! ## Helper lemmas -/

theorem le_jsClamp (v lo hi : ℝ) : lo ≤ jsClamp v lo hi :=
  le_max_left _ _

theorem jsClamp_le (v lo hi : ℝ) (h : lo ≤ hi) : jsClamp v lo hi ≤ hi :=
  max_le h (min_le_left _ _)

theorem jsDamp_self (x lam dt : ℝ) : jsDamp x x lam dt = x := by
  unfold jsDamp jsLerp; ring

theorem jsDamp_zero_delta (x y lam : ℝ) : jsDamp x y lam 0 = x := by
  unfold jsDamp jsLerp
  rw [mul_zero, Real.exp_zero]
  ring

theorem band_lt_gt_false (a : ℝ) : (decide (a < 0.09) && decide (a > 0.11)) = false := by
  by_cases h : a < 0.09
  · have h2 : ¬ a > 0.11 := by linarith
    rw [decide_eq_false h2, Bool.and_false]
  · rw [decide_eq_false h, Bool.false_and]

theorem grabOpenOf_not_both (v : Bool) (w : Option Vec3) (tips : List Vec3) :
    ((grabOpenOf v w tips).1 && (grabOpenOf v w tips).2) = false := by
  unfold grabOpenOf
  cases v with
  | false => rfl
  | true =>
    cases w with
    | none => rfl
    | some wp =>
      dsimp only
      split_ifs with h
      · exact band_lt_gt_false _
      · rfl

theorem pinchOf_position_isSome (v : Bool) (it tt : Option Vec3) (prev : PrevState)
    (dt : ℝ) :
    ((pinchOf v it tt prev dt).1.position).isSome = (pinchOf v it tt prev dt).1.active := by
  unfold pinchOf
  cases v <;> cases it <;> cases tt <;>
    first
      | rfl
      | (dsimp only; split_ifs <;> rfl)

theorem pinchOf_not_visible (it tt : Option Vec3) (prev : PrevState) (dt : ℝ) :
    pinchOf false it tt prev dt = (⟨false, none, none, 0⟩, prev.pinchPosition) := rfl

theorem grabOpenOf_not_visible (w : Option Vec3) (tips : List Vec3) :
    grabOpenOf false w tips = (false, false) := rfl

theorem dgcTouching_blocked (v : Bool) (lp : Option Vec3) (b : Box3) (hb : Bool)
    (px : ℝ) : dgcTouching true v lp b hb px = false := rfl

/-! ## Claims -/

/-- Claim C8: for every joint-snapshot input to `HandTracker.update`,
the published gesture state never reports `grab` and `open`
simultaneously — both flags compare the same average fingertip-to-wrist
distance against `0.09` and the strictly larger `0.11`. -/
theorem handTracker_grab_open_never_both (inp : HandInput) (prev : PrevState) (dt : ℝ) :
    ((handUpdate inp prev dt).state.grab && (handUpdate inp prev dt).state.openHand) =
      false := by
  simp only [handUpdate]
  exact grabOpenOf_not_both _ _ _

/-- Claim C10: after every `HandTracker.update` tick, `pinch.position`
is non-null exactly when `pinch.active` is true, and every `pinchend`
event payload carries `position = null` and `speed = 0`. -/
theorem handTracker_pinch_position_contract (inp : HandInput) (prev : PrevState)
    (dt : ℝ) :
    ((handUpdate inp prev dt).state.pinch.position).isSome =
        (handUpdate inp prev dt).state.pinch.active ∧
    (handUpdate inp prev dt).events.all evPred = true := by
  constructor
  · simp only [handUpdate]
    exact pinchOf_position_isSome _ _ _ _ _
  · simp only [handUpdate, List.all_eq_true]
    intro e he
    simp only [List.mem_append] at he
    rcases he with (he | he) | he
    · split_ifs at he with h1 h2 h3
      · simp only [List.singleton_append, List.mem_cons, List.mem_singleton,
          List.not_mem_nil, or_false] at he
        rcases he with rfl | rfl <;> rfl
      · simp only [List.append_nil, List.mem_singleton] at he
        subst he; rfl
      · simp only [List.mem_singleton] at he
        subst he
        simp [evPred]
      · exact absurd he (List.not_mem_nil e)
    · split_ifs at he with h1 h2
      · simp only [List.mem_singleton] at he
        subst he; rfl
      · simp only [List.mem_singleton] at he
        subst he; rfl
      · exact absurd he (List.not_mem_nil e)
    · split_ifs at he with h1 h2
      · simp only [List.mem_singleton] at he
        subst he; rfl
      · simp only [List.mem_singleton] at he
        subst he; rfl
      · exact absurd he (List.not_mem_nil e)

/-- Claim C2 counterexample: with `hand.visible = false` but a joint
map still reporting a wrist, the published state has `visible = false`
yet non-null `wrist` and `palm` positions — `wristPosition` and the
palm candidates are collected before the visibility guard. -/
theorem handTracker_invisible_cex :
    (handUpdate invisibleWristInput prevQuiet 0).state.visible = false ∧
    ((handUpdate invisibleWristInput prevQuiet 0).state.wrist).isSome = true ∧
    ((handUpdate invisibleWristInput prevQuiet 0).state.palm).isSome = true := by
  refine ⟨rfl, rfl, ?_⟩
  simp [handUpdate, invisibleWristInput, wristOnlyJoints, palmOf]

/-- Claim C2 (amended): on every tick where the published state has
`visible = false`, the gesture flags `pinch.active`, `grab` and `open`
are all false and `pinch.position` is null; the raw position fields
(`wrist`, `palm`, `indexTip`, `thumbTip`) are all null whenever the
hand reports no joints at all, but they echo whatever joints are still
present even while the hand is invisible. -/
theorem handTracker_invisible_resets (inp : HandInput) (prev : PrevState) (dt : ℝ)
    (h : (handUpdate inp prev dt).state.visible = false) :
    (handUpdate inp prev dt).state.pinch.active = false ∧
    (handUpdate inp prev dt).state.grab = false ∧
    (handUpdate inp prev dt).state.openHand = false ∧
    (handUpdate inp prev dt).state.pinch.position = none ∧
    (inp.joints = none →
      (handUpdate inp prev dt).state.wrist = none ∧
      (handUpdate inp prev dt).state.palm = none ∧
      (handUpdate inp prev dt).state.indexTip = none ∧
      (handUpdate inp prev dt).state.thumbTip = none) := by
  simp only [handUpdate] at h ⊢
  rw [h, pinchOf_not_visible, grabOpenOf_not_visible]
  refine ⟨rfl, rfl, rfl, rfl, fun hj => ?_⟩
  rw [hj]
  simp [palmOf]

/-- Witness for the amended claim C2 at a hand with no joints. -/
theorem handTracker_invisible_resets_witness :
    (handUpdate lostHandInput prevQuiet 0).state.visible = false ∧
    ((handUpdate lostHandInput prevQuiet 0).state.pinch.active = false ∧
     (handUpdate lostHandInput prevQuiet 0).state.grab = false ∧
     (handUpdate lostHandInput prevQuiet 0).state.openHand = false ∧
     (handUpdate lostHandInput prevQuiet 0).state.pinch.position = none ∧
     (lostHandInput.joints = none →
       (handUpdate lostHandInput prevQuiet 0).state.wrist = none ∧
       (handUpdate lostHandInput prevQuiet 0).state.palm = none ∧
       (handUpdate lostHandInput prevQuiet 0).state.indexTip = none ∧
       (handUpdate lostHandInput prevQuiet 0).state.thumbTip = none)) :=
  ⟨rfl, handTracker_invisible_resets lostHandInput prevQuiet 0 rfl⟩

theorem dgcFinish_blocked (opts : DGCOptions) (st2 : DGCState) (active1 : Option ℕ)
    (selfId : ℕ) (grp : GroupT) (bg bt lv rv : Bool) (lp rp : Option Vec3)
    (hact : decide (active1 = some selfId) = false) :
    (dgcFinish opts st2 active1 selfId grp bg true bt lv rv lp rp).res.grabbing = false ∧
    (dgcFinish opts st2 active1 selfId grp bg true bt lv rv lp rp).st.engaged = false ∧
    (dgcFinish opts st2 active1 selfId grp bg true bt lv rv lp rp).active = active1 := by
  unfold dgcFinish
  split_ifs with h1 h2 h3
  · exact ⟨rfl, by simpa using h1, rfl⟩
  · rw [hact, Bool.and_false] at h3
    exact absurd h3 (by simp)
  · exact ⟨rfl, rfl, rfl⟩
  · exact absurd (by simp) h2

/-- Claim C1: while another controller `a` owns the shared
`activeController` lock, calling `update` on controller `b` returns
`grabbing = false`, leaves `b` disengaged, and does not disturb the
lock — whatever the hand inputs are, including both hands touching
`b`'s padded bounds with `grab = true`. -/
theorem dgc_exclusive_lock (a b : ℕ) (opts : DGCOptions) (st : DGCState) (grp : GroupT)
    (env : DGCEnv) (l r : HandLite) (hab : a ≠ b) :
    (dgcUpdate b opts st (some a) grp env l r).res.grabbing = false ∧
    (dgcUpdate b opts st (some a) grp env l r).st.engaged = false ∧
    (dgcUpdate b opts st (some a) grp env l r).active = some a := by
  have hbl : dgcBlockedBy (some a) b = true := by
    simp [dgcBlockedBy, hab]
  have htl : ∀ h : HandLite, dgcHandTouching b opts (some a) grp env h = false := by
    intro h
    unfold dgcHandTouching
    rw [hbl]
    exact dgcTouching_blocked _ _ _ _ _
  have hbt : dgcBothTouching b opts (some a) grp env l r = false := by
    unfold dgcBothTouching
    rw [htl l, Bool.false_and]
  have hen : dgcEngagedNow b opts st (some a) grp env l r = false := by
    unfold dgcEngagedNow
    rw [hbt, Bool.false_and, Bool.and_false]
  have hact1 : dgcActive1 b opts st (some a) grp env l r = some a := by
    unfold dgcActive1
    rw [hen]
    rfl
  unfold dgcUpdate
  rw [hbl, hact1]
  exact dgcFinish_blocked opts _ (some a) b grp _ _ _ _ _ _ (by simp [hab])

/-- Witness for claim C1: with controller 0 holding the lock, a call on
controller 1 with both hands touching and grabbing is refused. -/
theorem dgc_exclusive_lock_witness :
    (0 : ℕ) ≠ 1 ∧
    ((dgcUpdate 1 optsW stIdle (some 0) grpW envW (handAt ⟨0, 0, 0⟩)
        (handAt ⟨1, 0, 0⟩)).res.grabbing = false ∧
     (dgcUpdate 1 optsW stIdle (some 0) grpW envW (handAt ⟨0, 0, 0⟩)
        (handAt ⟨1, 0, 0⟩)).st.engaged = false ∧
     (dgcUpdate 1 optsW stIdle (some 0) grpW envW (handAt ⟨0, 0, 0⟩)
        (handAt ⟨1, 0, 0⟩)).active = some 0) :=
  ⟨by decide,
   dgc_exclusive_lock 0 1 optsW stIdle grpW envW (handAt ⟨0, 0, 0⟩) (handAt ⟨1, 0, 0⟩)
     (by decide)⟩

theorem dgcFinish_grab_path (opts : DGCOptions) (st2 : DGCState) (active1 : Option ℕ)
    (selfId : ℕ) (grp : GroupT) (bg bl bt lv rv : Bool)
    (leftPoint rightPoint : Option Vec3) :
    (dgcFinish opts st2 active1 selfId grp bg bl bt lv rv leftPoint
        rightPoint).res.grabbing = false ∨
    ∃ lp rp, leftPoint = some lp ∧ rightPoint = some rp ∧
      (dgcFinish opts st2 active1 selfId grp bg bl bt lv rv leftPoint rightPoint).st =
        st2 ∧
      st2.engaged = true ∧
      (dgcFinish opts st2 active1 selfId grp bg bl bt lv rv leftPoint rightPoint).active =
        active1 ∧
      (dgcFinish opts st2 active1 selfId grp bg bl bt lv rv leftPoint rightPoint).group =
        dgcApplyTransform opts st2.initial lp rp grp := by
  unfold dgcFinish
  split_ifs with h1 h2 h3
  · left; rfl
  · left; rfl
  · left; rfl
  · right
    rcases leftPoint with _ | lp
    · simp at h2
    rcases rightPoint with _ | rp
    · simp at h2
    exact ⟨lp, rp, rfl, rfl, rfl, by simpa using h1, rfl, rfl⟩

theorem dgcUpdate_grab_path (selfId : ℕ) (opts : DGCOptions) (st : DGCState)
    (active : Option ℕ) (grp : GroupT) (env : DGCEnv) (l r : HandLite) :
    (dgcUpdate selfId opts st active grp env l r).res.grabbing = false ∨
    ∃ lp rp, handPoint l = some lp ∧ handPoint r = some rp ∧
      (dgcUpdate selfId opts st active grp env l r).st.engaged = true ∧
      (dgcUpdate selfId opts st active grp env l r).group =
        dgcApplyTransform opts (dgcUpdate selfId opts st active grp env l r).st.initial
          lp rp grp := by
  unfold dgcUpdate
  rcases dgcFinish_grab_path opts (dgcSt2 selfId opts st active grp env l r)
      (dgcActive1 selfId opts st active grp env l r) selfId grp (l.grab && r.grab)
      (dgcBlockedBy active selfId) (dgcBothTouching selfId opts active grp env l r)
      l.visible r.visible (handPoint l) (handPoint r) with
    h | ⟨lp, rp, hlp, hrp, hst, heng, hact, hgrp⟩
  · exact Or.inl h
  · refine Or.inr ⟨lp, rp, hlp, hrp, ?_, ?_⟩
    · rw [hst]; exact heng
    · rw [hgrp, hst]

theorem dgcFinish_st_initial (opts : DGCOptions) (st2 : DGCState) (active1 : Option ℕ)
    (selfId : ℕ) (grp : GroupT) (bg bl bt lv rv : Bool)
    (leftPoint rightPoint : Option Vec3) :
    (dgcFinish opts st2 active1 selfId grp bg bl bt lv rv leftPoint
        rightPoint).st.initial = st2.initial := by
  unfold dgcFinish
  split_ifs <;> rfl

theorem dgcSt2_of_engaged (selfId : ℕ) (opts : DGCOptions) (st : DGCState)
    (active : Option ℕ) (grp : GroupT) (env : DGCEnv) (l r : HandLite)
    (h : st.engaged = true) :
    dgcSt2 selfId opts st active grp env l r =
      { st with
          highlighted := st.engaged || dgcBothTouching selfId opts active grp env l r } := by
  unfold dgcSt2 dgcEngagedNow
  rw [h]
  simp [h]

theorem dgcUpdate_initial_of_engaged (selfId : ℕ) (opts : DGCOptions) (st : DGCState)
    (active : Option ℕ) (grp : GroupT) (env : DGCEnv) (l r : HandLite)
    (h : st.engaged = true) :
    (dgcUpdate selfId opts st active grp env l r).st.initial = st.initial := by
  unfold dgcUpdate
  rw [dgcFinish_st_initial, dgcSt2_of_engaged selfId opts st active grp env l r h]

theorem Vec3.add_right_comm (a b c : Vec3) : (a.add b).add c = (a.add c).add b := by
  simp only [Vec3.add, Vec3.mk.injEq]
  refine ⟨by ring, by ring, by ring⟩

theorem handPoint_translate (h : HandLite) (t : Vec3) :
    handPoint (h.translate t) = (handPoint h).map (·.add t) := by
  unfold handPoint HandLite.translate
  cases h.palm <;> cases h.wrist <;> rfl

theorem dgcApplyTransform_translate (opts : DGCOptions) (ini : DGCInitial)
    (lp rp t : Vec3) (g : GroupT) :
    (dgcApplyTransform opts ini (lp.add t) (rp.add t)
        (dgcApplyTransform opts ini lp rp g)).position =
      ((dgcApplyTransform opts ini lp rp g).position).add t ∧
    (dgcApplyTransform opts ini (lp.add t) (rp.add t)
        (dgcApplyTransform opts ini lp rp g)).quaternion =
      (dgcApplyTransform opts ini lp rp g).quaternion ∧
    (dgcApplyTransform opts ini (lp.add t) (rp.add t)
        (dgcApplyTransform opts ini lp rp g)).scale =
      (dgcApplyTransform opts ini lp rp g).scale := by
  have hspan : (rp.add t).sub (lp.add t) = rp.sub lp := by
    simp only [Vec3.add, Vec3.sub, Vec3.mk.injEq]
    refine ⟨by ring, by ring, by ring⟩
  have hmid : ((lp.add t).add (rp.add t)).smul 0.5 = ((lp.add rp).smul 0.5).add t := by
    simp only [Vec3.add, Vec3.smul, Vec3.mk.injEq]
    refine ⟨by ring, by ring, by ring⟩
  unfold dgcApplyTransform
  rw [hspan, hmid]
  dsimp only
  split_ifs with h
  · exact ⟨Vec3.add_right_comm _ t ini.offset, rfl, rfl⟩
  · exact ⟨Vec3.add_right_comm _ t ini.offset, rfl, rfl⟩

/-- Claim C3: from any engaged tick, calling `update` again with both
hand points translated by the same vector `t` (grab still held, both
points still touching, so both calls return `grabbing = true`) moves
the group by exactly `t` and leaves its quaternion and scale untouched
(exactly, in real arithmetic). -/
theorem dgc_translation_homomorphism (selfId : ℕ) (opts : DGCOptions) (st : DGCState)
    (active : Option ℕ) (grp : GroupT) (env env2 : DGCEnv) (l r : HandLite) (t : Vec3)
    (h1 : (dgcUpdate selfId opts st active grp env l r).res.grabbing = true)
    (h2 : (dgcTick2 selfId opts (dgcUpdate selfId opts st active grp env l r) env2
        (l.translate t) (r.translate t)).res.grabbing = true) :
    (dgcTick2 selfId opts (dgcUpdate selfId opts st active grp env l r) env2
        (l.translate t) (r.translate t)).group.position =
      ((dgcUpdate selfId opts st active grp env l r).group.position).add t ∧
    (dgcTick2 selfId opts (dgcUpdate selfId opts st active grp env l r) env2
        (l.translate t) (r.translate t)).group.quaternion =
      (dgcUpdate selfId opts st active grp env l r).group.quaternion ∧
    (dgcTick2 selfId opts (dgcUpdate selfId opts st active grp env l r) env2
        (l.translate t) (r.translate t)).group.scale =
      (dgcUpdate selfId opts st active grp env l r).group.scale := by
  rcases dgcUpdate_grab_path selfId opts st active grp env l r with
    hf | ⟨lp, rp, hlp, hrp, heng1, hgrp1⟩
  · rw [hf] at h1; cases h1
  unfold dgcTick2 at h2 ⊢
  rcases dgcUpdate_grab_path selfId opts
      (dgcUpdate selfId opts st active grp env l r).st
      (dgcUpdate selfId opts st active grp env l r).active
      (dgcUpdate selfId opts st active grp env l r).group env2
      (l.translate t) (r.translate t) with
    hf2 | ⟨lp2, rp2, hlp2, hrp2, heng2, hgrp2⟩
  · rw [hf2] at h2; cases h2
  rw [handPoint_translate, hlp] at hlp2
  rw [handPoint_translate, hrp] at hrp2
  simp only [Option.map_some', Option.some.injEq] at hlp2 hrp2
  subst hlp2
  subst hrp2
  have hini2 := dgcUpdate_initial_of_engaged selfId opts
    (dgcUpdate selfId opts st active grp env l r).st
    (dgcUpdate selfId opts st active grp env l r).active
    (dgcUpdate selfId opts st active grp env l r).group env2
    (l.translate t) (r.translate t) heng1
  rw [hgrp2, hini2, hgrp1]
  exact dgcApplyTransform_translate opts _ lp rp t grp

theorem dgcApplyTransform_scale (opts : DGCOptions) (ini : DGCInitial) (lp rp : Vec3)
    (g : GroupT) (hspan : (rp.sub lp).length > 1e-4)
    (hms : opts.minScale ≤ opts.maxScale) :
    opts.minScale ≤ (dgcApplyTransform opts ini lp rp g).scale.x ∧
    (dgcApplyTransform opts ini lp rp g).scale.x ≤ opts.maxScale ∧
    (dgcApplyTransform opts ini lp rp g).scale.y =
      (dgcApplyTransform opts ini lp rp g).scale.x ∧
    (dgcApplyTransform opts ini lp rp g).scale.z =
      (dgcApplyTransform opts ini lp rp g).scale.x := by
  unfold dgcApplyTransform
  dsimp only
  rw [if_pos hspan]
  exact ⟨le_jsClamp _ _ _, jsClamp_le _ _ _ hms, rfl, rfl⟩

theorem dgcApplyTransform_degenerate (opts : DGCOptions) (ini : DGCInitial)
    (lp rp : Vec3) (g : GroupT) (hspan : ¬((rp.sub lp).length > 1e-4)) :
    (dgcApplyTransform opts ini lp rp g).quaternion = g.quaternion ∧
    (dgcApplyTransform opts ini lp rp g).scale = g.scale ∧
    (dgcApplyTransform opts ini lp rp g).position =
      ((lp.add rp).smul 0.5).add ini.offset := by
  unfold dgcApplyTransform
  dsimp only
  rw [if_neg hspan]
  exact ⟨rfl, rfl, rfl⟩

/-- Claim C4: on every engaged tick whose live span is longer than the
degeneracy guard, the uniform scale written to the group lies within
`[minScale, maxScale]`, whatever the ratio of live to captured distance
is (the bounds must of course be ordered). -/
theorem dgc_scale_in_bounds (selfId : ℕ) (opts : DGCOptions) (st : DGCState)
    (active : Option ℕ) (grp : GroupT) (env : DGCEnv) (l r : HandLite) (lp rp : Vec3)
    (hlp : handPoint l = some lp) (hrp : handPoint r = some rp)
    (hspan : (rp.sub lp).length > 1e-4) (hms : opts.minScale ≤ opts.maxScale)
    (hg : (dgcUpdate selfId opts st active grp env l r).res.grabbing = true) :
    opts.minScale ≤ (dgcUpdate selfId opts st active grp env l r).group.scale.x ∧
    (dgcUpdate selfId opts st active grp env l r).group.scale.x ≤ opts.maxScale ∧
    (dgcUpdate selfId opts st active grp env l r).group.scale.y =
      (dgcUpdate selfId opts st active grp env l r).group.scale.x ∧
    (dgcUpdate selfId opts st active grp env l r).group.scale.z =
      (dgcUpdate selfId opts st active grp env l r).group.scale.x := by
  rcases dgcUpdate_grab_path selfId opts st active grp env l r with
    hf | ⟨lp2, rp2, hlp2, hrp2, heng, hgrp⟩
  · rw [hf] at hg; cases hg
  rw [hlp] at hlp2
  rw [hrp] at hrp2
  simp only [Option.some.injEq] at hlp2 hrp2
  subst hlp2
  subst hrp2
  rw [hgrp]
  exact dgcApplyTransform_scale opts _ lp rp grp hspan hms

/-- Claim C9: on every engaged tick whose live span is at or below the
`1e-4` guard, the group's quaternion and scale are held at their
previous values while the position still moves to the live midpoint
plus the captured offset. -/
theorem dgc_degenerate_span (selfId : ℕ) (opts : DGCOptions) (st : DGCState)
    (active : Option ℕ) (grp : GroupT) (env : DGCEnv) (l r : HandLite) (lp rp : Vec3)
    (hlp : handPoint l = some lp) (hrp : handPoint r = some rp)
    (hspan : (rp.sub lp).length ≤ 1e-4)
    (hg : (dgcUpdate selfId opts st active grp env l r).res.grabbing = true) :
    (dgcUpdate selfId opts st active grp env l r).group.quaternion = grp.quaternion ∧
    (dgcUpdate selfId opts st active grp env l r).group.scale = grp.scale ∧
    (dgcUpdate selfId opts st active grp env l r).group.position =
      ((lp.add rp).smul 0.5).add
        (dgcUpdate selfId opts st active grp env l r).st.initial.offset := by
  rcases dgcUpdate_grab_path selfId opts st active grp env l r with
    hf | ⟨lp2, rp2, hlp2, hrp2, heng, hgrp⟩
  · rw [hf] at hg; cases hg
  rw [hlp] at hlp2
  rw [hrp] at hrp2
  simp only [Option.some.injEq] at hlp2 hrp2
  subst hlp2
  subst hrp2
  rw [hgrp]
  exact dgcApplyTransform_degenerate opts _ lp rp grp (not_lt.mpr hspan)


theorem Mat4.identity_apply (v : Vec3) : Mat4.identity.applyToVec3 v = v := by
  cases v with
  | mk x y z =>
    unfold Mat4.applyToVec3 Mat4.identity
    dsimp only
    simp only [Vec3.mk.injEq]
    norm_num

theorem envW_box_not_empty : (⟨⟨-2, -2, -2⟩, ⟨2, 2, 2⟩⟩ : Box3).isEmpty = false := by
  norm_num [Box3.isEmpty]

theorem dgcW_bounds (grp : GroupT) (hsc : dgcAverageScale grp = 1) :
    dgcIntersectionBounds optsW grp envW = ⟨⟨-2, -2, -2⟩, ⟨2, 2, 2⟩⟩ := by
  unfold dgcIntersectionBounds optsW envW
  rw [hsc]
  norm_num

theorem dgcW_touch (grp : GroupT) (hsc : dgcAverageScale grp = 1) (p : Vec3)
    (hc : Box3.containsPoint ⟨⟨-2, -2, -2⟩, ⟨2, 2, 2⟩⟩ p = true) :
    dgcHandTouching 1 optsW (some 1) grp envW (handAt p) = true := by
  unfold dgcHandTouching dgcTouching
  rw [dgcW_bounds grp hsc]
  simp [dgcBlockedBy, envW, handAt, handPoint, Mat4.identity_apply, envW_box_not_empty, hc]


theorem dgcW_update_eval (grp : GroupT) (hsc : dgcAverageScale grp = 1) (pl pr : Vec3)
    (hcl : Box3.containsPoint ⟨⟨-2, -2, -2⟩, ⟨2, 2, 2⟩⟩ pl = true)
    (hcr : Box3.containsPoint ⟨⟨-2, -2, -2⟩, ⟨2, 2, 2⟩⟩ pr = true) :
    dgcUpdate 1 optsW stEng (some 1) grp envW (handAt pl) (handAt pr) =
      ⟨stEng, some 1, dgcApplyTransform optsW iniE pl pr grp, ⟨true, true⟩⟩ := by
  have hbt : dgcBothTouching 1 optsW (some 1) grp envW (handAt pl) (handAt pr) = true := by
    unfold dgcBothTouching
    rw [dgcW_touch grp hsc pl hcl, dgcW_touch grp hsc pr hcr]
    rfl
  have hen : dgcEngagedNow 1 optsW stEng (some 1) grp envW (handAt pl) (handAt pr) = false := rfl
  have hst2 : dgcSt2 1 optsW stEng (some 1) grp envW (handAt pl) (handAt pr) = stEng := by
    unfold dgcSt2
    rw [hen]
    simp [stEng]
  have hact1 : dgcActive1 1 optsW stEng (some 1) grp envW (handAt pl) (handAt pr) = some 1 := by
    unfold dgcActive1
    rw [hen]
    rfl
  unfold dgcUpdate
  rw [hst2, hact1, hbt]
  unfold dgcFinish
  simp [stEng, handAt, handPoint, dgcBlockedBy, iniE]


theorem handAt_translate (p t : Vec3) : (handAt p).translate t = handAt (p.add t) := rfl

theorem dgcW_span_one : ((⟨1, 0, 0⟩ : Vec3).sub ⟨0, 0, 0⟩).length = 1 := by
  norm_num [Vec3.sub, Vec3.length, Vec3.lengthSq, Real.sqrt_one]

theorem dgcW_span_zero : ((⟨0, 0, 0⟩ : Vec3).sub ⟨0, 0, 0⟩).length = 0 := by
  norm_num [Vec3.sub, Vec3.length, Vec3.lengthSq, Real.sqrt_zero]

theorem dgcW_scale1 : dgcAverageScale grpW = 1 := by
  norm_num [dgcAverageScale, grpW]

theorem dgcW_transform_scale :
    (dgcApplyTransform optsW iniE ⟨0, 0, 0⟩ ⟨1, 0, 0⟩ grpW).scale = ⟨1, 1, 1⟩ := by
  unfold dgcApplyTransform
  dsimp only
  rw [dgcW_span_one, if_pos (by norm_num : (1 : ℝ) > 1e-4)]
  norm_num [jsClamp, iniE, optsW]

theorem dgcW_scale2 :
    dgcAverageScale (dgcApplyTransform optsW iniE ⟨0, 0, 0⟩ ⟨1, 0, 0⟩ grpW) = 1 := by
  unfold dgcAverageScale
  rw [dgcW_transform_scale]
  norm_num

theorem dgcW_c00 : Box3.containsPoint ⟨⟨-2, -2, -2⟩, ⟨2, 2, 2⟩⟩ (⟨0, 0, 0⟩ : Vec3) = true := by
  norm_num [Box3.containsPoint]

theorem dgcW_c10 : Box3.containsPoint ⟨⟨-2, -2, -2⟩, ⟨2, 2, 2⟩⟩ (⟨1, 0, 0⟩ : Vec3) = true := by
  norm_num [Box3.containsPoint]

theorem dgcW_c001 : Box3.containsPoint ⟨⟨-2, -2, -2⟩, ⟨2, 2, 2⟩⟩
    ((⟨0, 0, 0⟩ : Vec3).add ⟨0, 0, 1⟩) = true := by
  norm_num [Box3.containsPoint, Vec3.add]

theorem dgcW_c101 : Box3.containsPoint ⟨⟨-2, -2, -2⟩, ⟨2, 2, 2⟩⟩
    ((⟨1, 0, 0⟩ : Vec3).add ⟨0, 0, 1⟩) = true := by
  norm_num [Box3.containsPoint, Vec3.add]

theorem dgcW_h1 :
    (dgcUpdate 1 optsW stEng (some 1) grpW envW (handAt ⟨0, 0, 0⟩)
      (handAt ⟨1, 0, 0⟩)).res.grabbing = true := by
  rw [dgcW_update_eval grpW dgcW_scale1 _ _ dgcW_c00 dgcW_c10]

theorem dgcW_h2 :
    (dgcTick2 1 optsW
      (dgcUpdate 1 optsW stEng (some 1) grpW envW (handAt ⟨0, 0, 0⟩) (handAt ⟨1, 0, 0⟩))
      envW ((handAt ⟨0, 0, 0⟩).translate ⟨0, 0, 1⟩)
      ((handAt ⟨1, 0, 0⟩).translate ⟨0, 0, 1⟩)).res.grabbing = true := by
  rw [dgcW_update_eval grpW dgcW_scale1 _ _ dgcW_c00 dgcW_c10]
  unfold dgcTick2
  dsimp only
  rw [handAt_translate, handAt_translate,
    dgcW_update_eval _ dgcW_scale2 _ _ dgcW_c001 dgcW_c101]

/-- Witness for claim C3: an engaged controller at hand points
`(0,0,0)` and `(1,0,0)`, then both points translated by `(0,0,1)`. -/
theorem dgc_translation_homomorphism_witness :
    (dgcUpdate 1 optsW stEng (some 1) grpW envW (handAt ⟨0, 0, 0⟩)
        (handAt ⟨1, 0, 0⟩)).res.grabbing = true ∧
    (dgcTick2 1 optsW
        (dgcUpdate 1 optsW stEng (some 1) grpW envW (handAt ⟨0, 0, 0⟩)
          (handAt ⟨1, 0, 0⟩))
        envW ((handAt ⟨0, 0, 0⟩).translate ⟨0, 0, 1⟩)
        ((handAt ⟨1, 0, 0⟩).translate ⟨0, 0, 1⟩)).res.grabbing = true ∧
    ((dgcTick2 1 optsW
        (dgcUpdate 1 optsW stEng (some 1) grpW envW (handAt ⟨0, 0, 0⟩)
          (handAt ⟨1, 0, 0⟩))
        envW ((handAt ⟨0, 0, 0⟩).translate ⟨0, 0, 1⟩)
        ((handAt ⟨1, 0, 0⟩).translate ⟨0, 0, 1⟩)).group.position =
      ((dgcUpdate 1 optsW stEng (some 1) grpW envW (handAt ⟨0, 0, 0⟩)
          (handAt ⟨1, 0, 0⟩)).group.position).add ⟨0, 0, 1⟩ ∧
     (dgcTick2 1 optsW
        (dgcUpdate 1 optsW stEng (some 1) grpW envW (handAt ⟨0, 0, 0⟩)
          (handAt ⟨1, 0, 0⟩))
        envW ((handAt ⟨0, 0, 0⟩).translate ⟨0, 0, 1⟩)
        ((handAt ⟨1, 0, 0⟩).translate ⟨0, 0, 1⟩)).group.quaternion =
      (dgcUpdate 1 optsW stEng (some 1) grpW envW (handAt ⟨0, 0, 0⟩)
        (handAt ⟨1, 0, 0⟩)).group.quaternion ∧
     (dgcTick2 1 optsW
        (dgcUpdate 1 optsW stEng (some 1) grpW envW (handAt ⟨0, 0, 0⟩)
          (handAt ⟨1, 0, 0⟩))
        envW ((handAt ⟨0, 0, 0⟩).translate ⟨0, 0, 1⟩)
        ((handAt ⟨1, 0, 0⟩).translate ⟨0, 0, 1⟩)).group.scale =
      (dgcUpdate 1 optsW stEng (some 1) grpW envW (handAt ⟨0, 0, 0⟩)
        (handAt ⟨1, 0, 0⟩)).group.scale) :=
  ⟨dgcW_h1, dgcW_h2,
   dgc_translation_homomorphism 1 optsW stEng (some 1) grpW envW envW
     (handAt ⟨0, 0, 0⟩) (handAt ⟨1, 0, 0⟩) ⟨0, 0, 1⟩ dgcW_h1 dgcW_h2⟩

/-- Witness for claim C4 at the same engaged tick. -/
theorem dgc_scale_in_bounds_witness :
    ((⟨1, 0, 0⟩ : Vec3).sub ⟨0, 0, 0⟩).length > 1e-4 ∧
    optsW.minScale ≤ optsW.maxScale ∧
    (optsW.minScale ≤
        (dgcUpdate 1 optsW stEng (some 1) grpW envW (handAt ⟨0, 0, 0⟩)
          (handAt ⟨1, 0, 0⟩)).group.scale.x ∧
     (dgcUpdate 1 optsW stEng (some 1) grpW envW (handAt ⟨0, 0, 0⟩)
        (handAt ⟨1, 0, 0⟩)).group.scale.x ≤ optsW.maxScale ∧
     (dgcUpdate 1 optsW stEng (some 1) grpW envW (handAt ⟨0, 0, 0⟩)
        (handAt ⟨1, 0, 0⟩)).group.scale.y =
       (dgcUpdate 1 optsW stEng (some 1) grpW envW (handAt ⟨0, 0, 0⟩)
         (handAt ⟨1, 0, 0⟩)).group.scale.x ∧
     (dgcUpdate 1 optsW stEng (some 1) grpW envW (handAt ⟨0, 0, 0⟩)
        (handAt ⟨1, 0, 0⟩)).group.scale.z =
       (dgcUpdate 1 optsW stEng (some 1) grpW envW (handAt ⟨0, 0, 0⟩)
         (handAt ⟨1, 0, 0⟩)).group.scale.x) := by
  have hspan : ((⟨1, 0, 0⟩ : Vec3).sub ⟨0, 0, 0⟩).length > 1e-4 := by
    rw [dgcW_span_one]
    norm_num
  have hms : optsW.minScale ≤ optsW.maxScale := by
    norm_num [optsW]
  exact ⟨hspan, hms,
    dgc_scale_in_bounds 1 optsW stEng (some 1) grpW envW (handAt ⟨0, 0, 0⟩)
      (handAt ⟨1, 0, 0⟩) ⟨0, 0, 0⟩ ⟨1, 0, 0⟩ rfl rfl hspan hms dgcW_h1⟩

/-- Witness for claim C9: both hands at the same point, so the live
span has length zero. -/
theorem dgc_degenerate_span_witness :
    ((⟨0, 0, 0⟩ : Vec3).sub ⟨0, 0, 0⟩).length ≤ 1e-4 ∧
    (dgcUpdate 1 optsW stEng (some 1) grpW envW (handAt ⟨0, 0, 0⟩)
        (handAt ⟨0, 0, 0⟩)).res.grabbing = true ∧
    ((dgcUpdate 1 optsW stEng (some 1) grpW envW (handAt ⟨0, 0, 0⟩)
        (handAt ⟨0, 0, 0⟩)).group.quaternion = grpW.quaternion ∧
     (dgcUpdate 1 optsW stEng (some 1) grpW envW (handAt ⟨0, 0, 0⟩)
        (handAt ⟨0, 0, 0⟩)).group.scale = grpW.scale ∧
     (dgcUpdate 1 optsW stEng (some 1) grpW envW (handAt ⟨0, 0, 0⟩)
        (handAt ⟨0, 0, 0⟩)).group.position =
       (((⟨0, 0, 0⟩ : Vec3).add ⟨0, 0, 0⟩).smul 0.5).add
         (dgcUpdate 1 optsW stEng (some 1) grpW envW (handAt ⟨0, 0, 0⟩)
           (handAt ⟨0, 0, 0⟩)).st.initial.offset) := by
  have hspan : ((⟨0, 0, 0⟩ : Vec3).sub ⟨0, 0, 0⟩).length ≤ 1e-4 := by
    rw [dgcW_span_zero]
    norm_num
  have hg : (dgcUpdate 1 optsW stEng (some 1) grpW envW (handAt ⟨0, 0, 0⟩)
      (handAt ⟨0, 0, 0⟩)).res.grabbing = true := by
    rw [dgcW_update_eval grpW dgcW_scale1 _ _ dgcW_c00 dgcW_c00]
  exact ⟨hspan, hg,
    dgc_degenerate_span 1 optsW stEng (some 1) grpW envW (handAt ⟨0, 0, 0⟩)
      (handAt ⟨0, 0, 0⟩) ⟨0, 0, 0⟩ ⟨0, 0, 0⟩ rfl rfl hspan hg⟩

theorem panelButtonUpdate_justActivated (st : ButtonState) (tk : BtnTick) :
    (panelButtonUpdate st tk).2.justActivated =
      (decide ((panelButtonUpdate st tk).2.ratio ≥ st.activationThreshold) &&
        !st.latched) := rfl

theorem panelButtonUpdate_justReleased (st : ButtonState) (tk : BtnTick) :
    (panelButtonUpdate st tk).2.justReleased =
      (!decide ((panelButtonUpdate st tk).2.ratio ≥ st.activationThreshold) && st.latched &&
        decide ((panelButtonUpdate st tk).2.ratio ≤ st.releaseThreshold)) := rfl

theorem panelButtonUpdate_latched (st : ButtonState) (tk : BtnTick) :
    (panelButtonUpdate st tk).1.latched =
      (if (decide ((panelButtonUpdate st tk).2.ratio ≥ st.activationThreshold) &&
            !st.latched) = true then true
       else if (!decide ((panelButtonUpdate st tk).2.ratio ≥ st.activationThreshold) &&
            st.latched &&
            decide ((panelButtonUpdate st tk).2.ratio ≤ st.releaseThreshold)) = true
       then false
       else st.latched) := rfl

theorem buttonRun_act (st0 : ButtonState) (tks : ℕ → BtnTick) (n : ℕ) :
    (buttonRun st0 tks n).activationThreshold = st0.activationThreshold := by
  induction n with
  | zero => rfl
  | succ n ih => exact ih

theorem buttonRun_rel (st0 : ButtonState) (tks : ℕ → BtnTick) (n : ℕ) :
    (buttonRun st0 tks n).releaseThreshold = st0.releaseThreshold := by
  induction n with
  | zero => rfl
  | succ n ih => exact ih

theorem button_latched_charact (st0 : ButtonState) (tks : ℕ → BtnTick) (a b : ℕ)
    (h0 : st0.latched = false)
    (hab : a < b)
    (hpre : ∀ i, i < a → (buttonResAt st0 tks i).ratio < st0.activationThreshold)
    (ha : st0.activationThreshold ≤ (buttonResAt st0 tks a).ratio)
    (hmid : ∀ i, a < i → i < b → st0.releaseThreshold < (buttonResAt st0 tks i).ratio) :
    ∀ i, i ≤ b → (buttonRun st0 tks i).latched = decide (a < i) := by
  intro i
  induction i with
  | zero =>
    intro _
    show st0.latched = decide (a < 0)
    rw [h0]
    simp
  | succ i ih =>
    intro hib
    have hib' : i ≤ b := Nat.le_of_succ_le hib
    have hlat := ih hib'
    show (panelButtonUpdate (buttonRun st0 tks i) (tks i)).1.latched = decide (a < i + 1)
    rw [panelButtonUpdate_latched, buttonRun_act, buttonRun_rel, hlat]
    rcases lt_trichotomy i a with hia | hia | hia
    · have hp : ¬ ((panelButtonUpdate (buttonRun st0 tks i) (tks i)).2.ratio ≥
          st0.activationThreshold) := not_le.mpr (hpre i hia)
      have h1 : decide (a < i) = false := by simp [Nat.not_lt.mpr (le_of_lt hia)]
      rw [decide_eq_false hp, h1]
      simp [Nat.not_lt.mpr hia]
    · subst hia
      have hp : (panelButtonUpdate (buttonRun st0 tks i) (tks i)).2.ratio ≥
          st0.activationThreshold := ha
      have h1 : decide (i < i) = false := by simp
      rw [decide_eq_true hp, h1]
      simp
    · have h1 : decide (a < i) = true := by simp [hia]
      have hib2 : i < b := hib
      have hp : ¬ ((panelButtonUpdate (buttonRun st0 tks i) (tks i)).2.ratio ≤
          st0.releaseThreshold) := not_le.mpr (hmid i hia hib2)
      rw [decide_eq_false hp, h1]
      simp [Nat.lt_succ_of_lt hia]


/-- Claim C5: over any run of `PanelButton.update` ticks that starts
unlatched, first reaches `ratio ≥ activationThreshold` at tick `a`,
stays strictly above `releaseThreshold` until it first reaches
`ratio ≤ releaseThreshold` at tick `b`, the returned `justActivated` is
true exactly at tick `a` and `justReleased` exactly at tick `b`; and on
any tick whose ratio lies strictly inside the hysteresis band, neither
flag is returned. -/
theorem panelButton_hysteresis (st0 : ButtonState) (tks : ℕ → BtnTick) (a b : ℕ)
    (h0 : st0.latched = false)
    (hrel : st0.releaseThreshold < st0.activationThreshold)
    (hab : a ≤ b)
    (hpre : ∀ i, i < a → (buttonResAt st0 tks i).ratio < st0.activationThreshold)
    (ha : st0.activationThreshold ≤ (buttonResAt st0 tks a).ratio)
    (hmid : ∀ i, a < i → i < b → st0.releaseThreshold < (buttonResAt st0 tks i).ratio)
    (hb : (buttonResAt st0 tks b).ratio ≤ st0.releaseThreshold) :
    (∀ i, i ≤ b →
      (((buttonResAt st0 tks i).justActivated = true) ↔ i = a) ∧
      (((buttonResAt st0 tks i).justReleased = true) ↔ i = b)) ∧
    (∀ i, st0.releaseThreshold < (buttonResAt st0 tks i).ratio →
      (buttonResAt st0 tks i).ratio < st0.activationThreshold →
      (buttonResAt st0 tks i).justActivated = false ∧
      (buttonResAt st0 tks i).justReleased = false) := by
  have hlt : a < b := by
    rcases lt_or_eq_of_le hab with h | h
    · exact h
    · exfalso
      rw [h] at ha
      exact absurd (le_trans ha hb) (not_le.mpr hrel)
  have hchar := button_latched_charact st0 tks a b h0 hlt hpre ha hmid
  constructor
  · intro i hib
    have hlatched := hchar i hib
    constructor
    · show ((panelButtonUpdate (buttonRun st0 tks i) (tks i)).2.justActivated = true) ↔
        i = a
      rw [panelButtonUpdate_justActivated, buttonRun_act, hlatched]
      rcases lt_trichotomy i a with hia | hia | hia
      · have hp : ¬ ((panelButtonUpdate (buttonRun st0 tks i) (tks i)).2.ratio ≥
            st0.activationThreshold) := not_le.mpr (hpre i hia)
        rw [decide_eq_false hp]
        simp [Nat.ne_of_lt hia]
      · subst hia
        have hp : (panelButtonUpdate (buttonRun st0 tks i) (tks i)).2.ratio ≥
            st0.activationThreshold := ha
        rw [decide_eq_true hp]
        simp
      · have h1 : decide (a < i) = true := by simp [hia]
        rw [h1]
        simp [(Nat.ne_of_lt hia).symm]
    · show ((panelButtonUpdate (buttonRun st0 tks i) (tks i)).2.justReleased = true) ↔
        i = b
      rw [panelButtonUpdate_justReleased, buttonRun_act, buttonRun_rel, hlatched]
      rcases lt_trichotomy i a with hia | hia | hia
      · have h1 : decide (a < i) = false := by simp [Nat.not_lt.mpr (le_of_lt hia)]
        rw [h1]
        simp [Nat.ne_of_lt (lt_of_lt_of_le hia (le_of_lt hlt))]
      · subst hia
        have h1 : decide (i < i) = false := by simp
        rw [h1]
        simp [Nat.ne_of_lt hlt]
      · have h1 : decide (a < i) = true := by simp [hia]
        rw [h1]
        rcases lt_or_eq_of_le hib with hib2 | hib2
        · have hp : ¬ ((panelButtonUpdate (buttonRun st0 tks i) (tks i)).2.ratio ≤
              st0.releaseThreshold) := not_le.mpr (hmid i hia hib2)
          rw [decide_eq_false hp]
          simp [Nat.ne_of_lt hib2]
        · subst hib2
          have hp : (panelButtonUpdate (buttonRun st0 tks i) (tks i)).2.ratio ≤
              st0.releaseThreshold := hb
          have hp2 : ¬ ((panelButtonUpdate (buttonRun st0 tks i) (tks i)).2.ratio ≥
              st0.activationThreshold) := not_le.mpr (lt_of_le_of_lt hb hrel)
          rw [decide_eq_true hp, decide_eq_false hp2]
          simp
  · intro i h1 h2
    constructor
    · show (panelButtonUpdate (buttonRun st0 tks i) (tks i)).2.justActivated = false
      rw [panelButtonUpdate_justActivated, buttonRun_act]
      have hp : ¬ ((panelButtonUpdate (buttonRun st0 tks i) (tks i)).2.ratio ≥
          st0.activationThreshold) := not_le.mpr h2
      rw [decide_eq_false hp, Bool.false_and]
    · show (panelButtonUpdate (buttonRun st0 tks i) (tks i)).2.justReleased = false
      rw [panelButtonUpdate_justReleased, buttonRun_act, buttonRun_rel]
      have hp : ¬ ((panelButtonUpdate (buttonRun st0 tks i) (tks i)).2.ratio ≤
          st0.releaseThreshold) := not_le.mpr h1
      rw [decide_eq_false hp, Bool.and_false]


theorem btnW_cand : buttonCandDepth Mat4.identity btnW ⟨0, 0, 0⟩ = some 0.053 := by
  unfold buttonCandDepth btnW
  rw [Mat4.identity_apply]
  dsimp only
  rw [if_pos (by norm_num)]
  norm_num

theorem btnW_target0 :
    computeButtonTargetDepth Mat4.identity btnW [btnPressHand, btnIdleHand] = 1e-5 := by
  simp only [computeButtonTargetDepth, buttonHandPoints, btnPressHand, btnIdleHand,
    List.foldr_cons, List.foldr_nil, if_true, if_false, Bool.false_eq_true,
    Option.toList_none, List.append_nil, List.nil_append, List.filterMap_cons,
    List.filterMap_nil, btnW_cand, List.foldl_cons, List.foldl_nil]
  show jsClamp (max 0 0.053) 0 btnW.maxPressDepth = 1e-5
  norm_num [jsClamp, btnW]


theorem btnW_tick0 :
    panelButtonUpdate btnW (btnTicks 0) =
      ({ btnW with currentDepth := 1e-5, targetDepth := 1e-5, latched := true },
       ⟨1, true, true, false⟩) := by
  unfold panelButtonUpdate
  simp only [btnTicks]
  rw [btnW_target0, jsDamp_zero_delta]
  norm_num [btnW, jsClamp]
  split_ifs with h
  · norm_num
  · exfalso
    apply h
    rw [abs_of_nonneg (by norm_num : (0 : ℝ) ≤ 1 / 100000)]
    norm_num


theorem btnW_target1 :
    computeButtonTargetDepth Mat4.identity
      { btnW with currentDepth := 1e-5, targetDepth := 1e-5, latched := true }
      [btnIdleHand, btnIdleHand] = 0 := by
  simp only [computeButtonTargetDepth, buttonHandPoints, btnIdleHand, List.foldr_cons,
    List.foldr_nil, if_false, Bool.false_eq_true, List.nil_append, List.filterMap_nil,
    List.foldl_nil]
  norm_num [jsClamp, btnW]

theorem btnW_run1 : buttonRun btnW btnTicks 1 =
    { btnW with currentDepth := 1e-5, targetDepth := 1e-5, latched := true } := by
  show (panelButtonUpdate (buttonRun btnW btnTicks 0) (btnTicks 0)).1 = _
  rw [show buttonRun btnW btnTicks 0 = btnW from rfl, btnW_tick0]

theorem btnW_ratio0 : (buttonResAt btnW btnTicks 0).ratio = 1 := by
  show (panelButtonUpdate (buttonRun btnW btnTicks 0) (btnTicks 0)).2.ratio = 1
  rw [show buttonRun btnW btnTicks 0 = btnW from rfl, btnW_tick0]

theorem btnW_ratio1 : (buttonResAt btnW btnTicks 1).ratio = 0 := by
  show (panelButtonUpdate (buttonRun btnW btnTicks 1) (btnTicks 1)).2.ratio = 0
  rw [btnW_run1, show btnTicks 1 = ⟨Mat4.identity, btnIdleHand, btnIdleHand, 0⟩ from rfl]
  unfold panelButtonUpdate
  dsimp only
  rw [btnW_target1, jsDamp_zero_delta]
  norm_num [btnW, jsClamp]
  split_ifs with h
  · norm_num
  · exfalso
    apply h
    rw [abs_of_nonneg (by norm_num : (0 : ℝ) ≤ 1 / 100000)]
    norm_num

/-- Witness for claim C5: a two-tick run on a button with a tiny
maximum depth — the ratio is 1 on the contact tick and 0 on the next,
so activation fires at tick 0 and release at tick 1. -/
theorem panelButton_hysteresis_witness :
    btnW.latched = false ∧
    btnW.releaseThreshold < btnW.activationThreshold ∧
    btnW.activationThreshold ≤ (buttonResAt btnW btnTicks 0).ratio ∧
    (buttonResAt btnW btnTicks 1).ratio ≤ btnW.releaseThreshold ∧
    ((∀ i, i ≤ 1 →
      (((buttonResAt btnW btnTicks i).justActivated = true) ↔ i = 0) ∧
      (((buttonResAt btnW btnTicks i).justReleased = true) ↔ i = 1)) ∧
     (∀ i, btnW.releaseThreshold < (buttonResAt btnW btnTicks i).ratio →
       (buttonResAt btnW btnTicks i).ratio < btnW.activationThreshold →
       (buttonResAt btnW btnTicks i).justActivated = false ∧
       (buttonResAt btnW btnTicks i).justReleased = false)) := by
  have h0 : btnW.latched = false := rfl
  have hrel : btnW.releaseThreshold < btnW.activationThreshold := by
    norm_num [btnW]
  have ha : btnW.activationThreshold ≤ (buttonResAt btnW btnTicks 0).ratio := by
    rw [btnW_ratio0]
    norm_num [btnW]
  have hb : (buttonResAt btnW btnTicks 1).ratio ≤ btnW.releaseThreshold := by
    rw [btnW_ratio1]
    norm_num [btnW]
  exact ⟨h0, hrel, ha, hb,
    panelButton_hysteresis btnW btnTicks 0 1 h0 hrel (by norm_num)
      (fun i hi => absurd hi (Nat.not_lt_zero i)) ha
      (fun i h1 h2 => absurd h1 (by omega)) hb⟩


theorem rotaryAcquire_selectedIndex (inv : Mat4) (st : RotaryState) (label : HandLabel)
    (hand : PinchLite) (s : RotaryState) (h : rotaryAcquire inv st label hand = some s) :
    s.selectedIndex = st.selectedIndex := by
  unfold rotaryAcquire at h
  rcases hpp : hand.pinchPos with _ | p
  · rw [hpp] at h
    cases h
  · rw [hpp] at h
    dsimp only at h
    split_ifs at h
    · injection h with h
      subst h
      rfl

theorem rotaryStep1_selectedIndex (st : RotaryState) :
    (rotaryStep1 st).selectedIndex = st.selectedIndex := by
  unfold rotaryStep1
  split_ifs <;> rfl

theorem rotaryStep2_selectedIndex (st : RotaryState) (tk : RotaryTick) :
    (rotaryStep2 st tk).selectedIndex = st.selectedIndex := by
  unfold rotaryStep2
  rcases hg : st.grabbedBy with _ | h
  · rfl
  · dsimp only
    split_ifs <;> rfl

theorem rotaryStep3_selectedIndex (st : RotaryState) (tk : RotaryTick) :
    (rotaryStep3 st tk).selectedIndex = st.selectedIndex := by
  unfold rotaryStep3
  split_ifs with h
  · rcases hl : rotaryAcquire tk.inv st HandLabel.L tk.left with _ | s
    · dsimp only
      rcases hr : rotaryAcquire tk.inv st HandLabel.R tk.right with _ | s2
      · rfl
      · exact rotaryAcquire_selectedIndex _ _ _ _ _ hr
    · exact rotaryAcquire_selectedIndex _ _ _ _ _ hl
  · rfl

theorem rotaryStep4_selectedIndex (st : RotaryState) (tk : RotaryTick) :
    (rotaryStep4 st tk).selectedIndex = st.selectedIndex := by
  unfold rotaryStep4
  rcases hg : st.grabbedBy with _ | h
  · rfl
  · dsimp only
    rcases hpp : (pickHand h tk.left tk.right).pinchPos with _ | p <;> rfl

theorem rotaryPre_selectedIndex (st : RotaryState) (tk : RotaryTick) :
    (rotaryPre st tk).selectedIndex = st.selectedIndex := by
  unfold rotaryPre
  rw [rotaryStep4_selectedIndex, rotaryStep3_selectedIndex, rotaryStep2_selectedIndex,
    rotaryStep1_selectedIndex]

theorem tmod_six_lower (k : ℤ) : -6 < k.tmod 6 := by
  rcases le_or_lt 0 k with hk | hk
  · have := Int.tmod_nonneg 6 hk
    linarith
  · have h2 : (-k).tmod 6 < 6 := Int.tmod_lt_of_pos (-k) (by norm_num)
    have h3 : (-k).tmod 6 = -(k.tmod 6) := by
      rw [Int.tmod_def, Int.tmod_def, Int.neg_tdiv]
      ring
    linarith

theorem jsMod6_nonneg (k : ℤ) : 0 ≤ (k.tmod 6 + 6).tmod 6 :=
  Int.tmod_nonneg _ (by have := tmod_six_lower k; linarith)

theorem jsMod6_lt (k : ℤ) : (k.tmod 6 + 6).tmod 6 < 6 :=
  Int.tmod_lt_of_pos _ (by norm_num)


/-- Claim C6: on every `RotarySelectorControl.update` tick, the
published `selectedIndex` equals
`((round(rawAngle/segmentAngle) tmod 6) + 6) tmod 6` of the
post-accumulation raw angle, always lies in `[0, 6)`, and the
`onSelectionChange` callback fires exactly on the ticks where this
index differs from the previous `selectedIndex`. -/
theorem rotary_selection (st : RotaryState) (tk : RotaryTick) :
    (rotaryUpdate st tk).2.selectedIndex =
      ((jsRound ((rotaryPre st tk).rawAngle / rotarySegment)).tmod 6 + 6).tmod 6 ∧
    0 ≤ (rotaryUpdate st tk).2.selectedIndex ∧
    (rotaryUpdate st tk).2.selectedIndex < 6 ∧
    (((rotaryUpdate st tk).2.selectionChanged = true) ↔
      ((jsRound ((rotaryPre st tk).rawAngle / rotarySegment)).tmod 6 + 6).tmod 6 ≠
        st.selectedIndex) := by
  have hpre := rotaryPre_selectedIndex st tk
  have hidx : (rotaryUpdate st tk).2.selectedIndex =
      ((jsRound ((rotaryPre st tk).rawAngle / rotarySegment)).tmod 6 + 6).tmod 6 := by
    unfold rotaryUpdate
    dsimp only
    by_cases hch :
        ((jsRound ((rotaryPre st tk).rawAngle / rotarySegment)).tmod 6 + 6).tmod 6 =
          st.selectedIndex
    · rw [decide_eq_false (fun hne => hne hch)]
      split_ifs <;> simp_all
    · rw [decide_eq_true hch]
      split_ifs <;> simp_all
  refine ⟨hidx, ?_, ?_, ?_⟩
  · rw [hidx]
    exact jsMod6_nonneg _
  · rw [hidx]
    exact jsMod6_lt _
  · show (decide (((jsRound ((rotaryPre st tk).rawAngle / rotarySegment)).tmod 6 + 6).tmod 6
        ≠ st.selectedIndex) = true) ↔ _
    rw [decide_eq_true_eq]


/-- Witness for claim C6's wraparound: with one full turn accumulated
(`rawAngle = 2` pi) the selected index is 0 again, not 6. -/
theorem rotary_selection_witness :
    (rotaryUpdate rotaryW rotaryTickIdle).2.selectedIndex = 0 := by
  have h := (rotary_selection rotaryW rotaryTickIdle).1
  rw [h]
  have hraw : (rotaryPre rotaryW rotaryTickIdle).rawAngle = Real.pi * 2 := rfl
  rw [hraw]
  have harg : Real.pi * 2 / rotarySegment = 6 := by
    unfold rotarySegment
    field_simp
  rw [harg]
  have h6 : jsRound 6 = 6 := by
    unfold jsRound
    rw [show (6 : ℝ) + 1 / 2 = 13 / 2 by norm_num]
    rw [Int.floor_eq_iff]
    norm_num
  rw [h6]
  decide


theorem throttleTryAcquire_none (padded : Box3) (inv : Mat4) (st : ThrottleState)
    (label : HandLabel) (hand : PinchLite) (h : pinchOk hand = false) :
    throttleTryAcquire padded inv st label hand = none := by
  unfold throttleTryAcquire
  rcases hp : hand.pinchPos with _ | p
  · rfl
  · dsimp only
    have hva : (hand.visible && hand.pinchActive) = false := by
      unfold pinchOk at h
      rw [hp] at h
      simpa using h
    rw [hva, Bool.false_and]
    rfl

theorem throttleTryAcquire_grabbedBy (padded : Box3) (inv : Mat4) (st : ThrottleState)
    (label : HandLabel) (hand : PinchLite) (s : ThrottleState)
    (h : throttleTryAcquire padded inv st label hand = some s) :
    s.grabbedBy = some label := by
  unfold throttleTryAcquire at h
  rcases hp : hand.pinchPos with _ | p
  · rw [hp] at h
    cases h
  · rw [hp] at h
    dsimp only at h
    split_ifs at h
    · injection h with h
      rw [← h]

theorem throttleTryAcquire_success (padded : Box3) (inv : Mat4) (st : ThrottleState)
    (label : HandLabel) (hand : PinchLite) (p : Vec3)
    (hv : hand.visible = true) (ha : hand.pinchActive = true)
    (hp : hand.pinchPos = some p) (hc : padded.containsPoint p = true) :
    throttleTryAcquire padded inv st label hand =
      some { st with
        grabbedBy := some label
        grabOffset := throttleAxisValue st (inv.applyToVec3 p).y - st.currentValue } := by
  unfold throttleTryAcquire
  rw [hp]
  dsimp only
  rw [hv, ha, hc]
  rfl

theorem throttleUpdate_hold_eq (st : ThrottleState) (tk : ThrottleTick) (p : Vec3)
    (hg : st.grabbedBy = some HandLabel.L) (hr : st.ready = true)
    (hv : tk.left.visible = true) (ha : tk.left.pinchActive = true)
    (hp : tk.left.pinchPos = some p) :
    (throttleUpdate st tk).1 =
      { st with
          targetValue := jsClamp (throttleAxisValue st (tk.inv.applyToVec3 p).y -
            st.grabOffset) 0 1,
          currentValue :=
            (if |jsDamp st.currentValue (jsClamp (throttleAxisValue st
                  (tk.inv.applyToVec3 p).y - st.grabOffset) 0 1) st.damping tk.delta -
                jsClamp (throttleAxisValue st (tk.inv.applyToVec3 p).y -
                  st.grabOffset) 0 1| < 1e-4 then
              jsClamp (throttleAxisValue st (tk.inv.applyToVec3 p).y - st.grabOffset) 0 1
            else jsDamp st.currentValue (jsClamp (throttleAxisValue st
              (tk.inv.applyToVec3 p).y - st.grabOffset) 0 1) st.damping tk.delta) } := by
  have hok : pinchOk tk.left = true := by
    unfold pinchOk
    rw [hv, ha, hp]
    rfl
  unfold throttleUpdate
  dsimp only
  rw [show throttleStep1 st = st by unfold throttleStep1; rw [hr]; rfl]
  rw [show throttleStep2 st tk = st by
    unfold throttleStep2; rw [hg]; dsimp only [pickHand]; rw [hok]; rfl]
  rw [show throttleStep3 (tk.bounding.expandByScalar st.grabPadding) st tk = st by
    unfold throttleStep3; rw [hg]; rfl]
  rw [show throttleStep4 st tk =
      { st with targetValue := jsClamp (throttleAxisValue st (tk.inv.applyToVec3 p).y -
          st.grabOffset) 0 1 } by
    unfold throttleStep4; rw [hg]; dsimp only [pickHand]; rw [hp]]
  unfold throttleStep5
  rfl


theorem jsClamp_id (v : ℝ) (h0 : 0 ≤ v) (h1 : v ≤ 1) : jsClamp v 0 1 = v := by
  unfold jsClamp
  rw [min_eq_right h1, max_eq_right h0]

theorem throttleUpdate_acquireL_eq (st : ThrottleState) (tk : ThrottleTick) (p : Vec3)
    (hg : st.grabbedBy = none) (hr : st.ready = true)
    (hv : tk.left.visible = true) (ha : tk.left.pinchActive = true)
    (hp : tk.left.pinchPos = some p)
    (hc : (tk.bounding.expandByScalar st.grabPadding).containsPoint p = true) :
    (throttleUpdate st tk).1 =
      { st with
          grabbedBy := some HandLabel.L
          grabOffset := throttleAxisValue st (tk.inv.applyToVec3 p).y - st.currentValue
          targetValue := jsClamp (throttleAxisValue st (tk.inv.applyToVec3 p).y -
            (throttleAxisValue st (tk.inv.applyToVec3 p).y - st.currentValue)) 0 1
          currentValue :=
            (if |jsDamp st.currentValue (jsClamp (throttleAxisValue st
                  (tk.inv.applyToVec3 p).y - (throttleAxisValue st
                  (tk.inv.applyToVec3 p).y - st.currentValue)) 0 1) st.damping tk.delta -
                jsClamp (throttleAxisValue st (tk.inv.applyToVec3 p).y -
                  (throttleAxisValue st (tk.inv.applyToVec3 p).y -
                  st.currentValue)) 0 1| < 1e-4 then
              jsClamp (throttleAxisValue st (tk.inv.applyToVec3 p).y -
                (throttleAxisValue st (tk.inv.applyToVec3 p).y - st.currentValue)) 0 1
            else jsDamp st.currentValue (jsClamp (throttleAxisValue st
              (tk.inv.applyToVec3 p).y - (throttleAxisValue st (tk.inv.applyToVec3 p).y -
              st.currentValue)) 0 1) st.damping tk.delta) } := by
  unfold throttleUpdate
  dsimp only
  rw [show throttleStep1 st = st from by unfold throttleStep1; rw [hr]; rfl]
  rw [show throttleStep2 st tk = st from by unfold throttleStep2; rw [hg]]
  rw [show throttleStep3 (tk.bounding.expandByScalar st.grabPadding) st tk =
      { st with
          grabbedBy := some HandLabel.L
          grabOffset := throttleAxisValue st (tk.inv.applyToVec3 p).y -
            st.currentValue } from by
    unfold throttleStep3
    rw [hg]
    simp only [Option.isNone_none, Bool.true_and]
    rw [if_pos hr, throttleTryAcquire_success _ _ _ _ _ p hv ha hp hc]]
  unfold throttleStep4
  dsimp only [pickHand]
  rw [hp]
  unfold throttleStep5
  rfl

theorem throttleUpdate_releaseL_eq (st : ThrottleState) (tk : ThrottleTick)
    (hg : st.grabbedBy = some HandLabel.L) (hr : st.ready = true)
    (hl : pinchOk tk.left = false) (hro : pinchOk tk.right = false) :
    (throttleUpdate st tk).1 =
      { st with
          grabbedBy := none
          grabOffset := 0
          targetValue := jsClamp st.targetValue 0 1
          currentValue :=
            (if |jsDamp st.currentValue (jsClamp st.targetValue 0 1) st.damping tk.delta -
                jsClamp st.targetValue 0 1| < 1e-4 then jsClamp st.targetValue 0 1
             else jsDamp st.currentValue (jsClamp st.targetValue 0 1) st.damping
               tk.delta) } := by
  unfold throttleUpdate
  dsimp only
  rw [show throttleStep1 st = st from by unfold throttleStep1; rw [hr]; rfl]
  rw [show throttleStep2 st tk = { st with grabbedBy := none, grabOffset := 0 } from by
    unfold throttleStep2
    rw [hg]
    dsimp only [pickHand]
    rw [hl]
    rfl]
  rw [show throttleStep3 (tk.bounding.expandByScalar st.grabPadding)
      { st with grabbedBy := none, grabOffset := 0 } tk =
      { st with grabbedBy := none, grabOffset := 0 } from by
    unfold throttleStep3
    simp only [Option.isNone_none, Bool.true_and]
    rw [if_pos hr, throttleTryAcquire_none _ _ _ _ _ hl,
      throttleTryAcquire_none _ _ _ _ _ hro]
    rfl]
  unfold throttleStep4
  dsimp only
  unfold throttleStep5
  rfl


theorem throttleStep4_grabbedBy (s : ThrottleState) (tk : ThrottleTick) :
    (throttleStep4 s tk).grabbedBy = s.grabbedBy := by
  unfold throttleStep4
  rcases hg : s.grabbedBy with _ | h
  · rfl
  · dsimp only
    rcases hp : (pickHand h tk.left tk.right).pinchPos with _ | p
    · exact hg
    · rfl

theorem throttleStep5_grabbedBy (s : ThrottleState) (tk : ThrottleTick) :
    (throttleStep5 s tk).grabbedBy = s.grabbedBy := rfl

theorem throttleUpdate_released (st : ThrottleState) (tk : ThrottleTick) (h : HandLabel)
    (hg : st.grabbedBy = some h)
    (hcond : st.ready = false ∨ pinchOk (pickHand h tk.left tk.right) = false) :
    (throttleUpdate st tk).1.grabbedBy ≠ some h := by
  unfold throttleUpdate
  dsimp only
  rw [throttleStep5_grabbedBy, throttleStep4_grabbedBy]
  by_cases hr : st.ready = true
  · have hpk : pinchOk (pickHand h tk.left tk.right) = false := by
      rcases hcond with h1 | h2
      · rw [hr] at h1
        cases h1
      · exact h2
    rw [show throttleStep1 st = st from by unfold throttleStep1; rw [hr]; rfl]
    rw [show throttleStep2 st tk = { st with grabbedBy := none, grabOffset := 0 } from by
      unfold throttleStep2
      rw [hg]
      dsimp only
      rw [hpk]
      rfl]
    unfold throttleStep3
    dsimp only
    simp only [Option.isNone_none, Bool.true_and]
    rw [if_pos hr]
    rcases hL : throttleTryAcquire (tk.bounding.expandByScalar st.grabPadding) tk.inv
        { st with grabbedBy := none, grabOffset := 0 } HandLabel.L tk.left with _ | sL
    · rcases hR : throttleTryAcquire (tk.bounding.expandByScalar st.grabPadding) tk.inv
          { st with grabbedBy := none, grabOffset := 0 } HandLabel.R tk.right with _ | sR
      · simp
      · have hsR : sR.grabbedBy = some HandLabel.R :=
          throttleTryAcquire_grabbedBy _ _ _ _ _ _ hR
        rw [Option.getD_some, hsR]
        intro heq
        injection heq with heq
        subst heq
        rw [show pickHand HandLabel.R tk.left tk.right = tk.right from rfl] at hpk
        rw [throttleTryAcquire_none _ _ _ _ _ hpk] at hR
        cases hR
    · have hsL : sL.grabbedBy = some HandLabel.L :=
        throttleTryAcquire_grabbedBy _ _ _ _ _ _ hL
      rw [hsL]
      intro heq
      injection heq with heq
      subst heq
      rw [show pickHand HandLabel.L tk.left tk.right = tk.left from rfl] at hpk
      rw [throttleTryAcquire_none _ _ _ _ _ hpk] at hL
      cases hL
  · have hrf : st.ready = false := by
      rwa [Bool.not_eq_true] at hr
    rw [show throttleStep1 st = { st with grabbedBy := none, grabOffset := 0 } from by
      unfold throttleStep1; rw [hrf]; rfl]
    rw [show throttleStep2 { st with grabbedBy := none, grabOffset := 0 } tk =
        { st with grabbedBy := none, grabOffset := 0 } from by
      unfold throttleStep2
      rfl]
    unfold throttleStep3
    dsimp only
    simp only [Option.isNone_none, Bool.true_and]
    rw [hrf]
    simp


theorem throttleAxisValue_congr (s t : ThrottleState) (y : ℝ)
    (hmin : s.minPosition = t.minPosition) (hmax : s.maxPosition = t.maxPosition) :
    throttleAxisValue s y = throttleAxisValue t y := by
  unfold throttleAxisValue
  rw [hmin, hmax]

theorem throttle_nojump (st : ThrottleState) (tk1 tk2 : ThrottleTick) (p : Vec3)
    (hg : st.grabbedBy = none) (hr : st.ready = true)
    (hv : tk1.left.visible = true) (ha : tk1.left.pinchActive = true)
    (hp : tk1.left.pinchPos = some p)
    (hc : (tk1.bounding.expandByScalar st.grabPadding).containsPoint p = true)
    (hl2 : pinchOk tk2.left = false) (hr2 : pinchOk tk2.right = false)
    (h0 : 0 ≤ st.currentValue) (h1 : st.currentValue ≤ 1) :
    (throttleUpdate (throttleUpdate st tk1).1 tk2).1.currentValue = st.currentValue ∧
    (throttleUpdate (throttleUpdate st tk1).1 tk2).1.grabbedBy = none := by
  have hT : jsClamp (throttleAxisValue st (tk1.inv.applyToVec3 p).y -
      (throttleAxisValue st (tk1.inv.applyToVec3 p).y - st.currentValue)) 0 1 =
      st.currentValue := by
    rw [show throttleAxisValue st (tk1.inv.applyToVec3 p).y -
        (throttleAxisValue st (tk1.inv.applyToVec3 p).y - st.currentValue) =
        st.currentValue from by ring]
    exact jsClamp_id _ h0 h1
  have e1 : (throttleUpdate st tk1).1 = { st with
      grabbedBy := some HandLabel.L
      grabOffset := throttleAxisValue st (tk1.inv.applyToVec3 p).y - st.currentValue
      targetValue := st.currentValue
      currentValue := st.currentValue } := by
    rw [throttleUpdate_acquireL_eq st tk1 p hg hr hv ha hp hc]
    rw [hT, jsDamp_self, sub_self, abs_zero, if_pos (by norm_num : (0:ℝ) < 1e-4)]
  rw [e1, throttleUpdate_releaseL_eq { st with
      grabbedBy := some HandLabel.L
      grabOffset := throttleAxisValue st (tk1.inv.applyToVec3 p).y - st.currentValue
      targetValue := st.currentValue
      currentValue := st.currentValue } tk2 rfl hr hl2 hr2]
  constructor
  · dsimp only
    rw [jsClamp_id _ h0 h1, jsDamp_self, sub_self, abs_zero,
      if_pos (by norm_num : (0:ℝ) < 1e-4)]
  · rfl


theorem jsDamp_to_one (c lam dt : ℝ) :
    jsDamp c 1 lam dt - 1 = -(Real.exp (-lam * dt) * (1 - c)) := by
  unfold jsDamp jsLerp
  ring

theorem throttleRun_hold_inv (st : ThrottleState) (tk : ThrottleTick) (p : Vec3)
    (hg : st.grabbedBy = some HandLabel.L) (hr : st.ready = true)
    (hv : tk.left.visible = true) (ha : tk.left.pinchActive = true)
    (hp : tk.left.pinchPos = some p)
    (hT : jsClamp (throttleAxisValue st (tk.inv.applyToVec3 p).y - st.grabOffset) 0 1 = 1)
    (hc1 : st.currentValue ≤ 1) :
    ∀ n : ℕ,
      (throttleRun st tk n).grabbedBy = some HandLabel.L ∧
      (throttleRun st tk n).ready = true ∧
      (throttleRun st tk n).minPosition = st.minPosition ∧
      (throttleRun st tk n).maxPosition = st.maxPosition ∧
      (throttleRun st tk n).grabOffset = st.grabOffset ∧
      (throttleRun st tk n).damping = st.damping ∧
      (throttleRun st tk n).currentValue ≤ 1 ∧
      1 - (throttleRun st tk n).currentValue ≤
        Real.exp (-st.damping * tk.delta) ^ n * (1 - st.currentValue) := by
  intro n
  induction n with
  | zero =>
      rw [show throttleRun st tk 0 = st from rfl]
      refine ⟨hg, hr, rfl, rfl, rfl, rfl, hc1, ?_⟩
      rw [pow_zero, one_mul]
  | succ n ih =>
      obtain ⟨ihg, ihr, ihmin, ihmax, ihoff, ihdamp, ihc1, ihd⟩ := ih
      have hq0 : (0:ℝ) < Real.exp (-st.damping * tk.delta) := Real.exp_pos _
      have hstep : throttleRun st tk (n + 1) =
          { ready := (throttleRun st tk n).ready
            currentValue :=
              (if |jsDamp (throttleRun st tk n).currentValue 1 st.damping tk.delta -
                  1| < 1e-4 then (1:ℝ)
               else jsDamp (throttleRun st tk n).currentValue 1 st.damping tk.delta)
            targetValue := 1
            minPosition := (throttleRun st tk n).minPosition
            maxPosition := (throttleRun st tk n).maxPosition
            grabPadding := (throttleRun st tk n).grabPadding
            damping := st.damping
            grabbedBy := (throttleRun st tk n).grabbedBy
            grabOffset := st.grabOffset } := by
        show (throttleUpdate (throttleRun st tk n) tk).1 = _
        rw [throttleUpdate_hold_eq (throttleRun st tk n) tk p ihg ihr hv ha hp]
        rw [throttleAxisValue_congr (throttleRun st tk n) st
          (tk.inv.applyToVec3 p).y ihmin ihmax, ihoff, hT, ihdamp]
      rw [hstep]
      refine ⟨ihg, ihr, ihmin, ihmax, rfl, rfl, ?_, ?_⟩
      · dsimp only
        split_ifs with hsnap
        · exact le_refl 1
        · rw [show jsDamp (throttleRun st tk n).currentValue 1 st.damping tk.delta =
              1 - Real.exp (-st.damping * tk.delta) *
                (1 - (throttleRun st tk n).currentValue) from by
            have := jsDamp_to_one (throttleRun st tk n).currentValue st.damping tk.delta
            linarith]
          nlinarith
      · dsimp only
        split_ifs with hsnap
        · have h1 : (0:ℝ) ≤ Real.exp (-st.damping * tk.delta) ^ (n + 1) :=
            le_of_lt (pow_pos hq0 _)
          nlinarith [ihd, pow_pos hq0 n]
        · rw [show jsDamp (throttleRun st tk n).currentValue 1 st.damping tk.delta =
              1 - Real.exp (-st.damping * tk.delta) *
                (1 - (throttleRun st tk n).currentValue) from by
            have := jsDamp_to_one (throttleRun st tk n).currentValue st.damping tk.delta
            linarith]
          rw [pow_succ]
          nlinarith [ihd, hq0]


theorem throttleRun_hold_succ (st : ThrottleState) (tk : ThrottleTick) (p : Vec3)
    (hg : st.grabbedBy = some HandLabel.L) (hr : st.ready = true)
    (hv : tk.left.visible = true) (ha : tk.left.pinchActive = true)
    (hp : tk.left.pinchPos = some p)
    (hT : jsClamp (throttleAxisValue st (tk.inv.applyToVec3 p).y - st.grabOffset) 0 1 = 1)
    (hc1 : st.currentValue ≤ 1) (n : ℕ) :
    (throttleRun st tk (n + 1)).currentValue =
      (if |jsDamp (throttleRun st tk n).currentValue 1 st.damping tk.delta - 1| <
          1e-4 then (1:ℝ)
       else jsDamp (throttleRun st tk n).currentValue 1 st.damping tk.delta) := by
  obtain ⟨ihg, ihr, ihmin, ihmax, ihoff, ihdamp, ihc1, ihd⟩ :=
    throttleRun_hold_inv st tk p hg hr hv ha hp hT hc1 n
  show (throttleUpdate (throttleRun st tk n) tk).1.currentValue = _
  rw [throttleUpdate_hold_eq (throttleRun st tk n) tk p ihg ihr hv ha hp]
  dsimp only
  rw [throttleAxisValue_congr (throttleRun st tk n) st
    (tk.inv.applyToVec3 p).y ihmin ihmax, ihoff, hT, ihdamp]

theorem throttleRun_reaches_one (st : ThrottleState) (tk : ThrottleTick) (p : Vec3)
    (hg : st.grabbedBy = some HandLabel.L) (hr : st.ready = true)
    (hv : tk.left.visible = true) (ha : tk.left.pinchActive = true)
    (hp : tk.left.pinchPos = some p)
    (hT : jsClamp (throttleAxisValue st (tk.inv.applyToVec3 p).y - st.grabOffset) 0 1 = 1)
    (hc1 : st.currentValue ≤ 1) (hd : 0 < st.damping * tk.delta) :
    ∃ N : ℕ, ∀ n : ℕ, N ≤ n → (throttleRun st tk n).currentValue = 1 := by
  have hq0 : (0:ℝ) < Real.exp (-st.damping * tk.delta) := Real.exp_pos _
  have hq1 : Real.exp (-st.damping * tk.delta) < 1 := by
    apply Real.exp_lt_one_iff.mpr
    rw [neg_mul]
    exact neg_lt_zero.mpr hd
  have hM0 : (0:ℝ) ≤ (1 - st.currentValue) * Real.exp (-st.damping * tk.delta) :=
    mul_nonneg (by linarith) hq0.le
  obtain ⟨N, hN⟩ := exists_pow_lt_of_lt_one
    (show (0:ℝ) < 1e-4 / ((1 - st.currentValue) *
      Real.exp (-st.damping * tk.delta) + 1) from by positivity) hq1
  refine ⟨N + 1, ?_⟩
  intro n hn
  obtain ⟨m, rfl⟩ : ∃ m, n = m + 1 := ⟨n - 1, by omega⟩
  have hm : N ≤ m := by omega
  obtain ⟨ihg, ihr, ihmin, ihmax, ihoff, ihdamp, ihc1, ihd2⟩ :=
    throttleRun_hold_inv st tk p hg hr hv ha hp hT hc1 m
  rw [throttleRun_hold_succ st tk p hg hr hv ha hp hT hc1 m]
  have hsnap : |jsDamp (throttleRun st tk m).currentValue 1 st.damping tk.delta - 1| <
      1e-4 := by
    rw [jsDamp_to_one, abs_neg,
      abs_of_nonneg (mul_nonneg hq0.le (by linarith [ihc1]))]
    have h3 : Real.exp (-st.damping * tk.delta) ^ m ≤
        Real.exp (-st.damping * tk.delta) ^ N :=
      pow_le_pow_of_le_one hq0.le hq1.le hm
    have h5 : Real.exp (-st.damping * tk.delta) ^ N *
        ((1 - st.currentValue) * Real.exp (-st.damping * tk.delta)) < 1e-4 := by
      have h6 : Real.exp (-st.damping * tk.delta) ^ N *
          ((1 - st.currentValue) * Real.exp (-st.damping * tk.delta)) ≤
          (1e-4 / ((1 - st.currentValue) * Real.exp (-st.damping * tk.delta) + 1)) *
          ((1 - st.currentValue) * Real.exp (-st.damping * tk.delta)) :=
        mul_le_mul_of_nonneg_right hN.le hM0
      have h7 : (1e-4 / ((1 - st.currentValue) *
          Real.exp (-st.damping * tk.delta) + 1)) *
          ((1 - st.currentValue) * Real.exp (-st.damping * tk.delta)) <
          (1e-4 / ((1 - st.currentValue) * Real.exp (-st.damping * tk.delta) + 1)) *
          ((1 - st.currentValue) * Real.exp (-st.damping * tk.delta) + 1) :=
        mul_lt_mul_of_pos_left (lt_add_one _) (by positivity)
      have h8 : (1e-4 / ((1 - st.currentValue) *
          Real.exp (-st.damping * tk.delta) + 1)) *
          ((1 - st.currentValue) * Real.exp (-st.damping * tk.delta) + 1) =
          1e-4 := div_mul_cancel₀ _ (by positivity)
      linarith
    have h2 : Real.exp (-st.damping * tk.delta) *
        (1 - (throttleRun st tk m).currentValue) ≤
        Real.exp (-st.damping * tk.delta) ^ m *
        ((1 - st.currentValue) * Real.exp (-st.damping * tk.delta)) := by
      nlinarith [mul_le_mul_of_nonneg_left ihd2 hq0.le]
    have h4 : Real.exp (-st.damping * tk.delta) ^ m *
        ((1 - st.currentValue) * Real.exp (-st.damping * tk.delta)) ≤
        Real.exp (-st.damping * tk.delta) ^ N *
        ((1 - st.currentValue) * Real.exp (-st.damping * tk.delta)) :=
      mul_le_mul_of_nonneg_right h3 hM0
    linarith
  rw [if_pos hsnap]


theorem throttleW_contains :
    (throttleTickAcquire.bounding.expandByScalar throttleW.grabPadding).containsPoint
      ⟨0, 0, 0⟩ = true := by
  simp only [throttleTickAcquire, throttleW, Box3.expandByScalar, Box3.containsPoint,
    Bool.and_eq_true, decide_eq_true_eq]
  norm_num

theorem throttleW_high_target :
    jsClamp (throttleAxisValue throttleGrabbed
      (throttleTickHigh.inv.applyToVec3 ⟨0, 10, 0⟩).y - throttleGrabbed.grabOffset)
      0 1 = 1 := by
  rw [show throttleTickHigh.inv = Mat4.identity from rfl, Mat4.identity_apply]
  unfold throttleAxisValue throttleGrabbed throttleW jsClamp
  norm_num [min_def, max_def]

/-- Claim C7: on acquisition the slider records
`grabOffset = axisValue(pinch) - currentValue`; acquiring and then releasing
without moving leaves `currentValue` unchanged; while grabbed
`targetValue = clamp(axisValue(livePinch) - grabOffset, 0, 1)` and a raw value
pinned at or above 1 drives `currentValue` to exactly 1 after finitely many
frames; the grab releases on any tick where readiness is lost or the grabbing
hand's pinch is no longer OK. -/
theorem throttle_slider_spec :
    (∀ (st : ThrottleState) (tk : ThrottleTick) (p : Vec3),
        st.grabbedBy = none → st.ready = true →
        tk.left.visible = true → tk.left.pinchActive = true →
        tk.left.pinchPos = some p →
        (tk.bounding.expandByScalar st.grabPadding).containsPoint p = true →
        (throttleUpdate st tk).1.grabbedBy = some HandLabel.L ∧
        (throttleUpdate st tk).1.grabOffset =
          throttleAxisValue st (tk.inv.applyToVec3 p).y - st.currentValue) ∧
    (∀ (st : ThrottleState) (tk1 tk2 : ThrottleTick) (p : Vec3),
        st.grabbedBy = none → st.ready = true →
        tk1.left.visible = true → tk1.left.pinchActive = true →
        tk1.left.pinchPos = some p →
        (tk1.bounding.expandByScalar st.grabPadding).containsPoint p = true →
        pinchOk tk2.left = false → pinchOk tk2.right = false →
        0 ≤ st.currentValue → st.currentValue ≤ 1 →
        (throttleUpdate (throttleUpdate st tk1).1 tk2).1.currentValue =
          st.currentValue ∧
        (throttleUpdate (throttleUpdate st tk1).1 tk2).1.grabbedBy = none) ∧
    (∀ (st : ThrottleState) (tk : ThrottleTick) (p : Vec3),
        st.grabbedBy = some HandLabel.L → st.ready = true →
        tk.left.visible = true → tk.left.pinchActive = true →
        tk.left.pinchPos = some p →
        (throttleUpdate st tk).1.targetValue =
          jsClamp (throttleAxisValue st (tk.inv.applyToVec3 p).y - st.grabOffset)
            0 1) ∧
    (∀ (st : ThrottleState) (tk : ThrottleTick) (p : Vec3),
        st.grabbedBy = some HandLabel.L → st.ready = true →
        tk.left.visible = true → tk.left.pinchActive = true →
        tk.left.pinchPos = some p →
        jsClamp (throttleAxisValue st (tk.inv.applyToVec3 p).y - st.grabOffset)
          0 1 = 1 →
        st.currentValue ≤ 1 → 0 < st.damping * tk.delta →
        ∃ N : ℕ, ∀ n : ℕ, N ≤ n → (throttleRun st tk n).currentValue = 1) ∧
    (∀ (st : ThrottleState) (tk : ThrottleTick) (h : HandLabel),
        st.grabbedBy = some h →
        (st.ready = false ∨ pinchOk (pickHand h tk.left tk.right) = false) →
        (throttleUpdate st tk).1.grabbedBy ≠ some h) := by
  refine ⟨?_, ?_, ?_, ?_, ?_⟩
  · intro st tk p hg hr hv ha hp hc
    rw [throttleUpdate_acquireL_eq st tk p hg hr hv ha hp hc]
    exact ⟨rfl, rfl⟩
  · intro st tk1 tk2 p hg hr hv ha hp hc hl2 hr2 h0 h1
    exact throttle_nojump st tk1 tk2 p hg hr hv ha hp hc hl2 hr2 h0 h1
  · intro st tk p hg hr hv ha hp
    rw [throttleUpdate_hold_eq st tk p hg hr hv ha hp]
  · intro st tk p hg hr hv ha hp hT hc1 hd
    exact throttleRun_reaches_one st tk p hg hr hv ha hp hT hc1 hd
  · intro st tk h hg hcond
    exact throttleUpdate_released st tk h hg hcond

/-- Instantiation of the slider claim on the `0.3`-valued slider: a grab at
the origin, an immediate release, a held target formula, the far-overdrag
run converging to exactly `1`, and the auto-release tick. -/
theorem throttle_slider_spec_witness :
    ((throttleUpdate throttleW throttleTickAcquire).1.grabbedBy =
        some HandLabel.L ∧
      (throttleUpdate throttleW throttleTickAcquire).1.grabOffset =
        throttleAxisValue throttleW
          (throttleTickAcquire.inv.applyToVec3 ⟨0, 0, 0⟩).y -
          throttleW.currentValue) ∧
    ((throttleUpdate (throttleUpdate throttleW throttleTickAcquire).1
        throttleTickRelease).1.currentValue = throttleW.currentValue ∧
      (throttleUpdate (throttleUpdate throttleW throttleTickAcquire).1
        throttleTickRelease).1.grabbedBy = none) ∧
    ((throttleUpdate throttleGrabbed throttleTickAcquire).1.targetValue =
      jsClamp (throttleAxisValue throttleGrabbed
        (throttleTickAcquire.inv.applyToVec3 ⟨0, 0, 0⟩).y -
        throttleGrabbed.grabOffset) 0 1) ∧
    (∃ N : ℕ, ∀ n : ℕ, N ≤ n →
      (throttleRun throttleGrabbed throttleTickHigh n).currentValue = 1) ∧
    (throttleUpdate throttleGrabbed throttleTickRelease).1.grabbedBy ≠
      some HandLabel.L := by
  refine ⟨throttle_slider_spec.1 throttleW throttleTickAcquire ⟨0, 0, 0⟩ rfl rfl rfl
      rfl rfl throttleW_contains,
    throttle_slider_spec.2.1 throttleW throttleTickAcquire throttleTickRelease
      ⟨0, 0, 0⟩ rfl rfl rfl rfl rfl throttleW_contains rfl rfl
      (by norm_num [throttleW]) (by norm_num [throttleW]),
    throttle_slider_spec.2.2.1 throttleGrabbed throttleTickAcquire ⟨0, 0, 0⟩ rfl rfl
      rfl rfl rfl,
    throttle_slider_spec.2.2.2.1 throttleGrabbed throttleTickHigh ⟨0, 10, 0⟩ rfl rfl
      rfl rfl rfl throttleW_high_target
      (by norm_num [throttleGrabbed, throttleW])
      (by norm_num [throttleGrabbed, throttleW, throttleTickHigh]),
    throttle_slider_spec.2.2.2.2 throttleGrabbed throttleTickRelease HandLabel.L rfl
      (Or.inr rfl)⟩

end VRTOR
